import Mathlib

/-!
Verification development for the jakke-graphics-ts geometry kernel.

The TypeScript sources are embedded shallowly:

* coordinates (`number`) become elements of a linear ordered field: `ℚ` for the
  algorithms that use only field operations and comparisons (BVH construction,
  bounding boxes, the axis-aligned-box ray test), `ℝ` where `Math.sqrt`,
  `Math.cos`/`Math.sin` occur (vector normalization, ray/triangle solve, line
  evaluation, SAT collision);
* the quantized vertex hash (source: the string `"x,y,z"` built from
  `Math.round(coord * 1e6)`) becomes the integer triple itself — the string
  formatting is injective on such triples, so the structural key is equivalent;
* `ActionResult` objects become structures with optional fields;
* methods that mutate `this` become state-passing functions;
* a thrown exception becomes an `Option`/sentinel result, noted at each site.
-/

set_option maxHeartbeats 1600000

namespace JakkeGraphics

/-- Coordinate triple: the source type `Vertex3d` and the BVH wrapper class
`BVHVertex` share exactly these fields, so both are embedded by this one
structure. -/
structure Vertex3 (α : Type) where
  x : α
  y : α
  z : α
deriving DecidableEq, Repr

/-- Result object of a state-changing action (source type `ActionResult`:
`{result: boolean, message?: string}`). -/
structure ActionResult where
  result : Bool
  message : Option String := none
deriving DecidableEq, Repr

/-- Axis selector; the source indexes vertices with the literal keys
`"x" | "y" | "z"` (`keyof Vertex3d`, and the enum `BVHSplitAxis`). -/
inductive BVHSplitAxis where
  | X
  | Y
  | Z
deriving DecidableEq, Repr

namespace Vertex3

variable {α : Type} [LinearOrderedField α]

/-- Componentwise sum (source `BVHVertex.add` / `VectorUtils.add`). -/
def add (a b : Vertex3 α) : Vertex3 α :=
  ⟨a.x + b.x, a.y + b.y, a.z + b.z⟩

/-- Componentwise difference (source `BVHVertex.subtract` /
`VectorUtils.subtract`). -/
def subtract (a b : Vertex3 α) : Vertex3 α :=
  ⟨a.x - b.x, a.y - b.y, a.z - b.z⟩

/-- Scalar multiple (source `BVHVertex.multiply` / `VectorUtils.scale`). -/
def multiply (a : Vertex3 α) (t : α) : Vertex3 α :=
  ⟨a.x * t, a.y * t, a.z * t⟩

/-- Dot product (source `BVHVertex.dot` / `VectorUtils.dot`). -/
def dot (a b : Vertex3 α) : α :=
  a.x * b.x + a.y * b.y + a.z * b.z

/-- Cross product (source `BVHVertex.cross` / `VectorUtils.cross`). -/
def cross (a b : Vertex3 α) : Vertex3 α :=
  ⟨a.y * b.z - a.z * b.y, a.z * b.x - a.x * b.z, a.x * b.y - a.y * b.x⟩

/-- Component along a named axis (source `v[axis]`). -/
def coord (v : Vertex3 α) : BVHSplitAxis → α
  | .X => v.x
  | .Y => v.y
  | .Z => v.z

end Vertex3

/-- Quantized vertex hash. Source `BVHVertex.getHash` rounds each coordinate
times `PRECISION = 1e6` with `Math.round` and formats the integer triple as a
string; we keep the triple itself (the formatting is injective). `Math.round`
rounds half-up, exactly Mathlib's `round` (`⌊x + 1/2⌋`). -/
abbrev VertexHash := ℤ × ℤ × ℤ

/-- Triangle hash: concatenation of the three vertex hashes
(source `BVHTriangle.getHash`). -/
abbrev TriangleHash := VertexHash × VertexHash × VertexHash

def Vertex3.getHash {α : Type} [LinearOrderedField α] [FloorRing α]
    (v : Vertex3 α) : VertexHash :=
  (round (v.x * 1000000), round (v.y * 1000000), round (v.z * 1000000))

/-- Triangle over three vertices (source class `BVHTriangle`; the constructor
guard is `BVHTriangle.create` below). -/
structure BVHTriangle (α : Type) where
  v1 : Vertex3 α
  v2 : Vertex3 α
  v3 : Vertex3 α
deriving DecidableEq, Repr

namespace BVHTriangle

variable {α : Type} [LinearOrderedField α]

/-- Source `BVHTriangle` constructor: throws (here: `none`) iff the three
vertex hashes all coincide (`dupV1V2 && dupV2V3 && dupV3V1`). -/
def create [FloorRing α] (v1 v2 v3 : Vertex3 α) : Option (BVHTriangle α) :=
  if v1.getHash = v2.getHash ∧ v2.getHash = v3.getHash ∧ v3.getHash = v1.getHash
  then none
  else some ⟨v1, v2, v3⟩

/-- Source `BVHTriangle.getCentroid`. -/
def getCentroid (t : BVHTriangle α) : Vertex3 α :=
  ⟨(t.v1.x + t.v2.x + t.v3.x) / 3,
   (t.v1.y + t.v2.y + t.v3.y) / 3,
   (t.v1.z + t.v2.z + t.v3.z) / 3⟩

/-- Source `BVHTriangle.getHash`: the three vertex hashes joined. -/
def getHash [FloorRing α] (t : BVHTriangle α) : TriangleHash :=
  (t.v1.getHash, t.v2.getHash, t.v3.getHash)

/-- Source `BVHTriangle.clone`: rebuilds the triangle from the same
coordinates, i.e. the identity on the embedded value. -/
def clone (t : BVHTriangle α) : BVHTriangle α :=
  ⟨t.v1, t.v2, t.v3⟩

end BVHTriangle

/-- Axis-aligned bounding box accumulated from inserted vertices (source class
`BVHBoundingBox`). The source seeds `_min`/`_max` with `±Infinity` and tracks
an `_initialized` flag; the flag is true exactly when at least one vertex was
accepted, and only then are `_min`/`_max` finite. We model the two fields
jointly as `box : Option (min, max)`, `none` standing for the uninitialized
`±Infinity` state; the first accepted vertex `v` turns
`(min(+∞, v), max(-∞, v))` into `(v, v)`. -/
structure BVHBoundingBox (α : Type) where
  vertexHashes : List VertexHash
  box : Option (Vertex3 α × Vertex3 α)
deriving DecidableEq, Repr

namespace BVHBoundingBox

variable {α : Type} [LinearOrderedField α]

/-- Source `BVHBoundingBox.create` (the private constructor). -/
def create : BVHBoundingBox α :=
  ⟨[], none⟩

/-- Source `BVHBoundingBox.isEmpty` (negated `_initialized`). -/
def isEmpty (b : BVHBoundingBox α) : Bool :=
  b.box.isNone

/-- Source `BVHBoundingBox.addVertex`: rejects a vertex whose quantized hash
is already present, otherwise extends min/max componentwise and marks the box
initialized. -/
def addVertex [FloorRing α] (b : BVHBoundingBox α) (v : Vertex3 α) :
    BVHBoundingBox α × ActionResult :=
  let hash := v.getHash
  if hash ∈ b.vertexHashes then
    (b, ⟨false, some "Given point is already included."⟩)
  else
    let newBox :=
      match b.box with
      | none => (v, v)
      | some (mn, mx) =>
          (⟨min mn.x v.x, min mn.y v.y, min mn.z v.z⟩,
           ⟨max mx.x v.x, max mx.y v.y, max mx.z v.z⟩)
    (⟨hash :: b.vertexHashes, some newBox⟩, ⟨true, none⟩)

/-- Source `BVHBoundingBox.getCentroid`. -/
def getCentroid (b : BVHBoundingBox α) : Option (Vertex3 α) :=
  b.box.map fun (mn, mx) =>
    ⟨(mn.x + mx.x) * (1 / 2), (mn.y + mx.y) * (1 / 2), (mn.z + mx.z) * (1 / 2)⟩

/-- Source `BVHBoundingBox.getDiagonal`: `max - min`, undefined while the box
was never initialized. -/
def getDiagonal (b : BVHBoundingBox α) : Option (Vertex3 α) :=
  b.box.map fun (mn, mx) =>
    ⟨mx.x - mn.x, mx.y - mn.y, mx.z - mn.z⟩

end BVHBoundingBox

/-- The BVH tree node (source class `BVHTree`): a triangle list, the set of
triangle hashes, an incrementally built bounding box and optional children.
The upward `parent` reference (used by the source only for `getRoot`) has no
bearing on any claim and is not modeled. -/
inductive BVHTree (α : Type) where
  | mk (triangles : List (BVHTriangle α)) (triangleHashes : List TriangleHash)
       (boundingBox : BVHBoundingBox α)
       (leftChild rightChild : Option (BVHTree α))

namespace BVHTree

variable {α : Type} [LinearOrderedField α]

/-- Triangle list of a node. -/
def triangles : BVHTree α → List (BVHTriangle α)
  | .mk ts _ _ _ _ => ts

/-- Triangle hash set of a node (source: a `Set<string>`; membership is all
that is ever used, so a list of structural hashes suffices). -/
def triangleHashes : BVHTree α → List TriangleHash
  | .mk _ hs _ _ _ => hs

/-- Bounding box of a node. -/
def boundingBox : BVHTree α → BVHBoundingBox α
  | .mk _ _ bb _ _ => bb

/-- Left child of a node. -/
def leftChild : BVHTree α → Option (BVHTree α)
  | .mk _ _ _ l _ => l

/-- Right child of a node. -/
def rightChild : BVHTree α → Option (BVHTree α)
  | .mk _ _ _ _ r => r

/-- A freshly constructed node (`new BVHTree()`). -/
def empty : BVHTree α :=
  .mk [] [] .create none none

/-- Source `BVHTree.addTriangle`: reject a triangle whose hash is already
present (no state change), otherwise push it, record its hash and feed its
three vertices to the bounding box. -/
def addTriangle [FloorRing α] : BVHTree α → BVHTriangle α → BVHTree α × ActionResult
  | .mk ts hs bb l r, t =>
    let hash := t.getHash
    if hash ∈ hs then
      (.mk ts hs bb l r, ⟨false, some "Given triangle is already included."⟩)
    else
      let bb1 := (bb.addVertex t.v1).1
      let bb2 := (bb1.addVertex t.v2).1
      let bb3 := (bb2.addVertex t.v3).1
      (.mk (ts ++ [t]) (hash :: hs) bb3 l r, ⟨true, none⟩)

/-- The `triangles.forEach(t => node.addTriangle(t))` pattern used by the
source both on the root (caller-side insertion) and inside `buildBVHTree`. -/
def insertAll [FloorRing α] (n : BVHTree α) (ts : List (BVHTriangle α)) : BVHTree α :=
  ts.foldl (fun m t => (m.addTriangle t).1) n

/-- Setting both children of a node (`node.leftChild = …; node.rightChild = …`
inside `buildBVHTree`; the children's parent back-references are not modeled). -/
def setChildren : BVHTree α → BVHTree α → BVHTree α → BVHTree α
  | .mk ts hs bb _ _, l, r => .mk ts hs bb (some l) (some r)

end BVHTree

/-- Source `BVHTriangleEnumerator.split`: sort a copy of the triangle list by
centroid coordinate on the given axis (JavaScript's stable ascending sort
under the comparator `ca[axis] - cb[axis]`), then cut at `floor(n / 2)`. -/
def BVHTriangleEnumerator.split {α : Type} [LinearOrderedField α]
    (axis : BVHSplitAxis) (triangles : List (BVHTriangle α)) :
    List (BVHTriangle α) × List (BVHTriangle α) :=
  let sorted := triangles.mergeSort fun a b =>
    decide (a.getCentroid.coord axis ≤ b.getCentroid.coord axis)
  let mid := sorted.length / 2
  (sorted.take mid, sorted.drop mid)

namespace BVHTree

variable {α : Type} [LinearOrderedField α]

/-- Dominant-extent split-axis choice (the `const axis = …` conditional inside
the source `buildBVHTree`): x if `diagonal.x ≥ diagonal.y ∧ diagonal.x ≥
diagonal.z`, else y if `diagonal.y ≥ diagonal.z`, else z. -/
def axisOfDiagonal (diagonal : Vertex3 α) : BVHSplitAxis :=
  if diagonal.x ≥ diagonal.y ∧ diagonal.x ≥ diagonal.z then .X
  else if diagonal.y ≥ diagonal.z then .Y
  else .Z

/-- Source `BVHTree.buildBVHTree` (private recursive build): a set of at most
one triangle becomes a leaf; otherwise a fresh node is filled with the whole
set, the dominant bounding-box extent picks the split axis, and the two halves
produced by `BVHTriangleEnumerator.split` are built recursively; if the
diagonal is undefined the list is halved positionally instead. -/
def buildBVHTree [FloorRing α] (ts : List (BVHTriangle α)) : BVHTree α :=
  if h : ts.length ≤ 1 then
    BVHTree.empty.insertAll ts
  else
    let node := BVHTree.empty.insertAll ts
    match node.boundingBox.getDiagonal with
    | none =>
        let mid := ts.length / 2
        node.setChildren (buildBVHTree (ts.take mid)) (buildBVHTree (ts.drop mid))
    | some diagonal =>
        let axis : BVHSplitAxis := axisOfDiagonal diagonal
        node.setChildren
          (buildBVHTree (BVHTriangleEnumerator.split axis ts).1)
          (buildBVHTree (BVHTriangleEnumerator.split axis ts).2)
termination_by ts.length
decreasing_by
  all_goals
    simp only [BVHTriangleEnumerator.split, List.length_take, List.length_drop,
      List.length_mergeSort]
    omega

/-- Source `BVHTree.getSortedTriangles`: clones the triangle list and sorts by
centroid, x-then-y when the diagonal is x-major, else y-then-x. The source
throws when the bounding-box diagonal is undefined; the thrown state is
`none`. -/
def getSortedTriangles [FloorRing α] (t : BVHTree α) :
    Option (List (BVHTriangle α)) :=
  match t.boundingBox.getDiagonal with
  | none => none
  | some diagonal =>
      let isXMajor := diagonal.x > diagonal.y
      some ((t.triangles.map BVHTriangle.clone).mergeSort fun a b =>
        let ca := a.getCentroid
        let cb := b.getCentroid
        if isXMajor then decide (ca.x < cb.x ∨ (ca.x = cb.x ∧ ca.y ≤ cb.y))
        else decide (ca.y < cb.y ∨ (ca.y = cb.y ∧ ca.x ≤ cb.x)))

/-- Source `BVHTree.calculateTree`: sort, then build. A `none` result is the
exception thrown by `getSortedTriangles`. -/
def calculateTree [FloorRing α] (t : BVHTree α) : Option (BVHTree α) :=
  t.getSortedTriangles.map buildBVHTree

/-- Leaf nodes (no children) of a built tree, left to right — the nodes whose
triangle sets the specification's leaf-partition property is about. -/
def leaves : BVHTree α → List (BVHTree α)
  | .mk ts hs bb none none => [.mk ts hs bb none none]
  | .mk _ _ _ (some l) none => leaves l
  | .mk _ _ _ none (some r) => leaves r
  | .mk _ _ _ (some l) (some r) => leaves l ++ leaves r

/-- Number of leaves of a built tree. -/
def countLeaves (t : BVHTree α) : ℕ :=
  t.leaves.length

end BVHTree

/-! ### Quantization arithmetic -/

/-- Two coordinates whose quantized values agree differ by at most the grid
width `1e-6`. -/
theorem round_eq_imp_close {α : Type} [LinearOrderedField α] [FloorRing α]
    {x y : α} (h : round (x * 1000000) = round (y * 1000000)) :
    |x - y| ≤ 1 / 1000000 := by
  have hx := abs_sub_round (x * 1000000)
  have hy := abs_sub_round (y * 1000000)
  rw [h] at hx
  have h2 : |(round (y * 1000000) : α) - y * 1000000| ≤ 1 / 2 := by
    rw [abs_sub_comm]; exact hy
  have h1 : |x * 1000000 - y * 1000000| ≤ 1 := by
    have h3 := abs_sub_le (x * 1000000) ((round (y * 1000000) : ℤ) : α) (y * 1000000)
    linarith
  have habs : |(x - y) * (1000000 : α)| = |x - y| * 1000000 := by
    rw [abs_mul, abs_of_pos (by norm_num : (0 : α) < 1000000)]
  have h4 : |x - y| * 1000000 ≤ 1 := by
    rw [← habs]
    have h5 : (x - y) * (1000000 : α) = x * 1000000 - y * 1000000 := by ring
    rw [h5]; exact h1
  linarith

/-- One coordinate of the averaged centroid moves by at most the common bound
on the three vertex coordinates. -/
theorem centroid_coord_close {α : Type} [LinearOrderedField α]
    {a1 a2 a3 b1 b2 b3 : α}
    (h1 : |a1 - b1| ≤ 1 / 1000000) (h2 : |a2 - b2| ≤ 1 / 1000000)
    (h3 : |a3 - b3| ≤ 1 / 1000000) :
    |(a1 + a2 + a3) / 3 - (b1 + b2 + b3) / 3| ≤ 1 / 1000000 := by
  have hsum := abs_add_three (a1 - b1) (a2 - b2) (a3 - b3)
  have heq : (a1 + a2 + a3) / 3 - (b1 + b2 + b3) / 3
      = ((a1 - b1) + (a2 - b2) + (a3 - b3)) / 3 := by ring
  rw [heq, abs_div, abs_of_pos (by norm_num : (0 : α) < 3)]
  have : |a1 - b1 + (a2 - b2) + (a3 - b3)| ≤ 3 * (1 / 1000000) := by linarith
  linarith

/-- Formalization of the specification's "well-separated centroids": the two
centroids differ by more than the quantization grid width `1e-6` on some
coordinate. Triangles whose hashes collide have centroids within `1e-6` on
every coordinate, so well-separated centroids force distinct hashes. -/
def centroidSeparated {α : Type} [LinearOrderedField α]
    (t s : BVHTriangle α) : Prop :=
  1 / 1000000 < |t.getCentroid.x - s.getCentroid.x| ∨
  1 / 1000000 < |t.getCentroid.y - s.getCentroid.y| ∨
  1 / 1000000 < |t.getCentroid.z - s.getCentroid.z|

instance {α : Type} [LinearOrderedField α] (t s : BVHTriangle α) :
    Decidable (centroidSeparated t s) := by
  unfold centroidSeparated; infer_instance

/-- Hash-equal triangles have componentwise `1e-6`-close centroids. -/
theorem getHash_eq_imp_centroid_close {α : Type} [LinearOrderedField α]
    [FloorRing α] {t s : BVHTriangle α} (h : t.getHash = s.getHash) :
    |t.getCentroid.x - s.getCentroid.x| ≤ 1 / 1000000 ∧
    |t.getCentroid.y - s.getCentroid.y| ≤ 1 / 1000000 ∧
    |t.getCentroid.z - s.getCentroid.z| ≤ 1 / 1000000 := by
  have h1 : t.v1.getHash = s.v1.getHash ∧ t.v2.getHash = s.v2.getHash ∧
      t.v3.getHash = s.v3.getHash := by
    simpa [BVHTriangle.getHash, Prod.ext_iff] using h
  obtain ⟨hv1, hv2, hv3⟩ := h1
  have e1 : round (t.v1.x * 1000000) = round (s.v1.x * 1000000) ∧
      round (t.v1.y * 1000000) = round (s.v1.y * 1000000) ∧
      round (t.v1.z * 1000000) = round (s.v1.z * 1000000) := by
    simpa [Vertex3.getHash, Prod.ext_iff] using hv1
  have e2 : round (t.v2.x * 1000000) = round (s.v2.x * 1000000) ∧
      round (t.v2.y * 1000000) = round (s.v2.y * 1000000) ∧
      round (t.v2.z * 1000000) = round (s.v2.z * 1000000) := by
    simpa [Vertex3.getHash, Prod.ext_iff] using hv2
  have e3 : round (t.v3.x * 1000000) = round (s.v3.x * 1000000) ∧
      round (t.v3.y * 1000000) = round (s.v3.y * 1000000) ∧
      round (t.v3.z * 1000000) = round (s.v3.z * 1000000) := by
    simpa [Vertex3.getHash, Prod.ext_iff] using hv3
  refine ⟨?_, ?_, ?_⟩
  · exact centroid_coord_close (round_eq_imp_close e1.1) (round_eq_imp_close e2.1)
      (round_eq_imp_close e3.1)
  · exact centroid_coord_close (round_eq_imp_close e1.2.1)
      (round_eq_imp_close e2.2.1) (round_eq_imp_close e3.2.1)
  · exact centroid_coord_close (round_eq_imp_close e1.2.2)
      (round_eq_imp_close e2.2.2) (round_eq_imp_close e3.2.2)

/-- Well-separated centroids give distinct triangle hashes. -/
theorem centroidSeparated_hash_ne {α : Type} [LinearOrderedField α]
    [FloorRing α] {t s : BVHTriangle α} (h : centroidSeparated t s) :
    t.getHash ≠ s.getHash := by
  intro he
  obtain ⟨hx, hy, hz⟩ := getHash_eq_imp_centroid_close he
  rcases h with h | h | h <;> linarith

/-! ### Insertion state lemmas -/

theorem addTriangle_dup {α : Type} [LinearOrderedField α] [FloorRing α]
    (n : BVHTree α) (t : BVHTriangle α) (h : t.getHash ∈ n.triangleHashes) :
    n.addTriangle t
      = (n, ⟨false, some "Given triangle is already included."⟩) := by
  cases n with
  | mk ts hs bb l r =>
    simp only [BVHTree.triangleHashes] at h
    simp [BVHTree.addTriangle, h]

theorem addTriangle_fresh_fields {α : Type} [LinearOrderedField α] [FloorRing α]
    (n : BVHTree α) (t : BVHTriangle α) (h : t.getHash ∉ n.triangleHashes) :
    ((n.addTriangle t).1).triangles = n.triangles ++ [t] ∧
    ((n.addTriangle t).1).triangleHashes = t.getHash :: n.triangleHashes ∧
    ((n.addTriangle t).1).boundingBox
      = (((n.boundingBox.addVertex t.v1).1.addVertex t.v2).1.addVertex t.v3).1 ∧
    ((n.addTriangle t).2).result = true := by
  cases n with
  | mk ts hs bb l r =>
    simp only [BVHTree.triangleHashes] at h
    simp [BVHTree.addTriangle, h, BVHTree.triangles, BVHTree.boundingBox,
      BVHTree.triangleHashes]

theorem addTriangle_children {α : Type} [LinearOrderedField α] [FloorRing α]
    (n : BVHTree α) (t : BVHTriangle α) :
    ((n.addTriangle t).1).leftChild = n.leftChild ∧
    ((n.addTriangle t).1).rightChild = n.rightChild := by
  cases n with
  | mk ts hs bb l r =>
    by_cases h : t.getHash ∈ hs <;>
      simp [BVHTree.addTriangle, h, BVHTree.leftChild, BVHTree.rightChild]

theorem insertAll_children {α : Type} [LinearOrderedField α] [FloorRing α]
    (ts : List (BVHTriangle α)) :
    ∀ n : BVHTree α, (n.insertAll ts).leftChild = n.leftChild ∧
      (n.insertAll ts).rightChild = n.rightChild := by
  induction ts with
  | nil => intro n; simp [BVHTree.insertAll]
  | cons t rest ih =>
    intro n
    have hstep := addTriangle_children n t
    have hrec := ih (n.addTriangle t).1
    constructor
    · calc (n.insertAll (t :: rest)).leftChild
          = ((n.addTriangle t).1.insertAll rest).leftChild := by
            simp [BVHTree.insertAll]
        _ = n.leftChild := by rw [hrec.1, hstep.1]
    · calc (n.insertAll (t :: rest)).rightChild
          = ((n.addTriangle t).1.insertAll rest).rightChild := by
            simp [BVHTree.insertAll]
        _ = n.rightChild := by rw [hrec.2, hstep.2]

theorem addVertex_box_isSome {α : Type} [LinearOrderedField α] [FloorRing α]
    (b : BVHBoundingBox α) (v : Vertex3 α) (h : b.box.isSome) :
    ((b.addVertex v).1).box.isSome := by
  by_cases hm : v.getHash ∈ b.vertexHashes <;>
    simp [BVHBoundingBox.addVertex, hm, h]

theorem addVertex_box_isSome_fresh {α : Type} [LinearOrderedField α]
    [FloorRing α] (b : BVHBoundingBox α) (v : Vertex3 α)
    (h : v.getHash ∉ b.vertexHashes) : ((b.addVertex v).1).box.isSome := by
  simp [BVHBoundingBox.addVertex, h]

theorem addTriangle_box_isSome {α : Type} [LinearOrderedField α] [FloorRing α]
    (n : BVHTree α) (t : BVHTriangle α) (h : n.boundingBox.box.isSome) :
    ((n.addTriangle t).1).boundingBox.box.isSome := by
  cases n with
  | mk ts hs bb l r =>
    simp only [BVHTree.boundingBox] at h
    by_cases hm : t.getHash ∈ hs
    · simpa [BVHTree.addTriangle, hm, BVHTree.boundingBox] using h
    · simp only [BVHTree.addTriangle, hm, if_neg, BVHTree.boundingBox]
      exact addVertex_box_isSome _ _ (addVertex_box_isSome _ _
        (addVertex_box_isSome _ _ h))

theorem insertAll_box_isSome_of {α : Type} [LinearOrderedField α] [FloorRing α]
    (ts : List (BVHTriangle α)) :
    ∀ n : BVHTree α, n.boundingBox.box.isSome →
      ((n.insertAll ts)).boundingBox.box.isSome := by
  induction ts with
  | nil => intro n h; simpa [BVHTree.insertAll] using h
  | cons t rest ih =>
    intro n h
    have : n.insertAll (t :: rest) = ((n.addTriangle t).1).insertAll rest := by
      simp [BVHTree.insertAll]
    rw [this]
    exact ih _ (addTriangle_box_isSome n t h)

/-- A nonempty insertion from a fresh root always initializes the bounding
box: the first triangle's first vertex is necessarily accepted. -/
theorem insertAll_box_isSome {α : Type} [LinearOrderedField α] [FloorRing α]
    (ts : List (BVHTriangle α)) (h : ts ≠ []) :
    ((BVHTree.empty : BVHTree α).insertAll ts).boundingBox.box.isSome := by
  cases ts with
  | nil => exact absurd rfl h
  | cons t rest =>
    have hstep : (BVHTree.empty : BVHTree α).insertAll (t :: rest)
        = ((BVHTree.empty.addTriangle t).1).insertAll rest := by
      simp [BVHTree.insertAll]
    rw [hstep]
    refine insertAll_box_isSome_of rest _ ?_
    have h1 : ((BVHBoundingBox.create : BVHBoundingBox α).addVertex t.v1).1.box.isSome := by
      simp [BVHBoundingBox.addVertex, BVHBoundingBox.create]
    have h3 := addVertex_box_isSome _ t.v3 (addVertex_box_isSome _ t.v2 h1)
    simpa [BVHTree.addTriangle, BVHTree.empty, BVHTree.triangleHashes,
      BVHTree.boundingBox] using h3

/-- Hash-distinct triangles that are all fresh for the target node are all
accepted, in order. -/
theorem insertAll_triangles {α : Type} [LinearOrderedField α] [FloorRing α]
    (ts : List (BVHTriangle α)) :
    ∀ n : BVHTree α, (ts.map BVHTriangle.getHash).Nodup →
      (∀ t ∈ ts, t.getHash ∉ n.triangleHashes) →
      (n.insertAll ts).triangles = n.triangles ++ ts := by
  induction ts with
  | nil => intro n _ _; simp [BVHTree.insertAll]
  | cons t rest ih =>
    intro n hnd hfresh
    have hft : t.getHash ∉ n.triangleHashes := hfresh t (by simp)
    have hf := addTriangle_fresh_fields n t hft
    have hstep : n.insertAll (t :: rest) = ((n.addTriangle t).1).insertAll rest := by
      simp [BVHTree.insertAll]
    rw [hstep, ih (n.addTriangle t).1 (by simpa using hnd.of_cons) ?_, hf.1]
    · simp
    · intro s hs
      rw [hf.2.1]
      simp only [List.mem_cons]
      push_neg
      refine ⟨?_, hfresh s (by simp [hs])⟩
      intro heq
      have : t.getHash ∈ rest.map BVHTriangle.getHash := by
        exact List.mem_map.mpr ⟨s, hs, heq⟩
      have hn := (List.nodup_cons.mp hnd).1
      exact hn this

/-! ### Build-structure lemmas -/

theorem leaves_of_no_children {α : Type} [LinearOrderedField α]
    (n : BVHTree α) (hl : n.leftChild = none) (hr : n.rightChild = none) :
    n.leaves = [n] := by
  cases n with
  | mk ts hs bb l r =>
    simp only [BVHTree.leftChild, BVHTree.rightChild] at hl hr
    subst hl; subst hr
    simp [BVHTree.leaves]

theorem leaves_setChildren {α : Type} [LinearOrderedField α]
    (n l r : BVHTree α) :
    (n.setChildren l r).leaves = l.leaves ++ r.leaves := by
  cases n with
  | mk ts hs bb l0 r0 => simp [BVHTree.setChildren, BVHTree.leaves]

theorem split_append_perm {α : Type} [LinearOrderedField α]
    (axis : BVHSplitAxis) (ts : List (BVHTriangle α)) :
    ((BVHTriangleEnumerator.split axis ts).1
      ++ (BVHTriangleEnumerator.split axis ts).2).Perm ts := by
  simp only [BVHTriangleEnumerator.split]
  rw [List.take_append_drop]
  exact List.mergeSort_perm ts _

theorem split_length_fst {α : Type} [LinearOrderedField α]
    (axis : BVHSplitAxis) (ts : List (BVHTriangle α)) :
    (BVHTriangleEnumerator.split axis ts).1.length = ts.length / 2 := by
  simp only [BVHTriangleEnumerator.split, List.length_take, List.length_mergeSort]
  omega

theorem split_length_snd {α : Type} [LinearOrderedField α]
    (axis : BVHSplitAxis) (ts : List (BVHTriangle α)) :
    (BVHTriangleEnumerator.split axis ts).2.length
      = ts.length - ts.length / 2 := by
  simp only [BVHTriangleEnumerator.split, List.length_drop, List.length_mergeSort]

theorem split_map_hash_nodup {α : Type} [LinearOrderedField α] [FloorRing α]
    (axis : BVHSplitAxis) (ts : List (BVHTriangle α))
    (hnd : (ts.map BVHTriangle.getHash).Nodup) :
    ((BVHTriangleEnumerator.split axis ts).1.map BVHTriangle.getHash).Nodup ∧
    ((BVHTriangleEnumerator.split axis ts).2.map BVHTriangle.getHash).Nodup := by
  have hperm := (List.mergeSort_perm ts
    (fun a b => decide (a.getCentroid.coord axis ≤ b.getCentroid.coord axis))).map
    BVHTriangle.getHash
  have hsorted : ((ts.mergeSort fun a b =>
      decide (a.getCentroid.coord axis ≤ b.getCentroid.coord axis)).map
      BVHTriangle.getHash).Nodup := (List.Perm.nodup_iff hperm).mpr hnd
  constructor
  · simp only [BVHTriangleEnumerator.split]
    rw [List.map_take]
    exact List.Nodup.sublist (List.take_sublist _ _) hsorted
  · simp only [BVHTriangleEnumerator.split]
    rw [List.map_drop]
    exact List.Nodup.sublist (List.drop_sublist _ _) hsorted

theorem buildBVHTree_leaf_case {α : Type} [LinearOrderedField α] [FloorRing α]
    (ts : List (BVHTriangle α)) (h : ts.length ≤ 1) :
    BVHTree.buildBVHTree ts = BVHTree.empty.insertAll ts := by
  rw [BVHTree.buildBVHTree]
  simp [h]

theorem buildBVHTree_none_case {α : Type} [LinearOrderedField α] [FloorRing α]
    (ts : List (BVHTriangle α)) (h : ¬ ts.length ≤ 1)
    (hd : (BVHTree.empty.insertAll ts).boundingBox.getDiagonal = none) :
    BVHTree.buildBVHTree ts = (BVHTree.empty.insertAll ts).setChildren
      (BVHTree.buildBVHTree (ts.take (ts.length / 2)))
      (BVHTree.buildBVHTree (ts.drop (ts.length / 2))) := by
  rw [BVHTree.buildBVHTree]
  simp only [h, dite_false]
  rw [hd]

theorem buildBVHTree_some_case {α : Type} [LinearOrderedField α] [FloorRing α]
    (ts : List (BVHTriangle α)) (h : ¬ ts.length ≤ 1) (diagonal : Vertex3 α)
    (hd : (BVHTree.empty.insertAll ts).boundingBox.getDiagonal = some diagonal) :
    BVHTree.buildBVHTree ts = (BVHTree.empty.insertAll ts).setChildren
      (BVHTree.buildBVHTree
        (BVHTriangleEnumerator.split (BVHTree.axisOfDiagonal diagonal) ts).1)
      (BVHTree.buildBVHTree
        (BVHTriangleEnumerator.split (BVHTree.axisOfDiagonal diagonal) ts).2) := by
  rw [BVHTree.buildBVHTree]
  simp only [h, dite_false]
  rw [hd]

/-- Core build invariant: for hash-distinct input triangles, the leaves of the
recursively built tree partition the input list (up to permutation) and the
tree has exactly `max 1 n` leaves. -/
theorem buildBVHTree_leaf_partition {α : Type} [LinearOrderedField α]
    [FloorRing α] (ts : List (BVHTriangle α))
    (hnd : (ts.map BVHTriangle.getHash).Nodup) :
    ((BVHTree.buildBVHTree ts).leaves.flatMap BVHTree.triangles).Perm ts ∧
    (BVHTree.buildBVHTree ts).countLeaves = max 1 ts.length := by
  induction ts using BVHTree.buildBVHTree.induct with
  | case1 x hlen =>
    rw [buildBVHTree_leaf_case x hlen]
    have hchild := insertAll_children x (BVHTree.empty : BVHTree α)
    have hleaves : (BVHTree.empty.insertAll x).leaves
        = [BVHTree.empty.insertAll x] := by
      refine leaves_of_no_children _ ?_ ?_
      · rw [hchild.1]; rfl
      · rw [hchild.2]; rfl
    have htr : (BVHTree.empty.insertAll x).triangles = x := by
      have := insertAll_triangles x (BVHTree.empty : BVHTree α) hnd
        (by intro t _; simp [BVHTree.empty, BVHTree.triangleHashes])
      simpa [BVHTree.empty, BVHTree.triangles] using this
    constructor
    · rw [hleaves]
      simp [htr]
    · rw [BVHTree.countLeaves, hleaves]
      simp only [List.length_singleton]
      omega
  | case2 x hlen node hdiag mid ih1 ih2 =>
    simp only [node] at hdiag
    have hb := buildBVHTree_none_case x hlen hdiag
    have hnd1 : ((List.take (x.length / 2) x).map BVHTriangle.getHash).Nodup := by
      rw [List.map_take]
      exact List.Nodup.sublist (List.take_sublist _ _) hnd
    have hnd2 : ((List.drop (x.length / 2) x).map BVHTriangle.getHash).Nodup := by
      rw [List.map_drop]
      exact List.Nodup.sublist (List.drop_sublist _ _) hnd
    obtain ⟨p1, c1⟩ := ih1 hnd1
    obtain ⟨p2, c2⟩ := ih2 hnd2
    rw [hb]
    constructor
    · rw [leaves_setChildren, List.flatMap_append]
      refine (p1.append p2).trans ?_
      rw [List.take_append_drop]
    · rw [BVHTree.countLeaves, leaves_setChildren, List.length_append]
      rw [BVHTree.countLeaves] at c1 c2
      rw [c1, c2]
      simp only [List.length_take, List.length_drop]
      omega
  | case3 x hlen node diagonal hdiag axis ih1 ih2 =>
    simp only [node] at hdiag
    have hb := buildBVHTree_some_case x hlen diagonal hdiag
    have haxis : axis = BVHTree.axisOfDiagonal diagonal := by
      simp [axis, BVHTree.axisOfDiagonal]
    rw [haxis] at ih1 ih2
    obtain ⟨hs1, hs2⟩ := split_map_hash_nodup (BVHTree.axisOfDiagonal diagonal) x hnd
    obtain ⟨p1, c1⟩ := ih1 hs1
    obtain ⟨p2, c2⟩ := ih2 hs2
    rw [hb]
    constructor
    · rw [leaves_setChildren, List.flatMap_append]
      exact (p1.append p2).trans (split_append_perm _ x)
    · rw [BVHTree.countLeaves, leaves_setChildren, List.length_append]
      rw [BVHTree.countLeaves] at c1 c2
      rw [c1, c2, split_length_fst, split_length_snd]
      omega

/-- Cloning is the identity on embedded triangle values. -/
theorem map_clone_id {α : Type} [LinearOrderedField α]
    (ts : List (BVHTriangle α)) : ts.map BVHTriangle.clone = ts := by
  have h : ∀ a ∈ ts, a.clone = id a := fun a _ => rfl
  rw [List.map_congr_left h, List.map_id]

/-- Building from a nonempty hash-distinct insertion: the build operation
succeeds and recurses on a permutation of the inserted triangles. -/
theorem calculateTree_insertAll {α : Type} [LinearOrderedField α] [FloorRing α]
    (ts : List (BVHTriangle α)) (hne : ts ≠ [])
    (hnd : (ts.map BVHTriangle.getHash).Nodup) :
    ∃ sorted : List (BVHTriangle α), sorted.Perm ts ∧
      (BVHTree.empty.insertAll ts).calculateTree
        = some (BVHTree.buildBVHTree sorted) := by
  have hsome := insertAll_box_isSome ts hne
  have htr : (BVHTree.empty.insertAll ts).triangles = ts := by
    have := insertAll_triangles ts (BVHTree.empty : BVHTree α) hnd
      (by intro t _; simp [BVHTree.empty, BVHTree.triangleHashes])
    simpa [BVHTree.empty, BVHTree.triangles] using this
  obtain ⟨pr, hbox⟩ := Option.isSome_iff_exists.mp hsome
  obtain ⟨mn, mx⟩ := pr
  have hd : (BVHTree.empty.insertAll ts).boundingBox.getDiagonal
      = some ⟨mx.x - mn.x, mx.y - mn.y, mx.z - mn.z⟩ := by
    simp [BVHBoundingBox.getDiagonal, hbox]
  have hex : ∃ l, (BVHTree.empty.insertAll ts).getSortedTriangles = some l
      ∧ l.Perm ts := by
    simp only [BVHTree.getSortedTriangles, hd, htr, map_clone_id]
    exact ⟨_, rfl, List.mergeSort_perm ts _⟩
  obtain ⟨sorted, hs1, hs2⟩ := hex
  refine ⟨sorted, hs2, ?_⟩
  simp [BVHTree.calculateTree, hs1]

/-- C1: for at least two triangles with pairwise well-separated centroids
inserted into a fresh `BVHTree`, `calculateTree` succeeds and the resulting
tree has at least `N` leaves; the concatenation of the leaves' triangle-hash
lists is a permutation of the inserted hash list and is duplicate-free — no
triangle is lost and none occurs in more than one leaf. -/
theorem C1_build_leaves_partition (ts : List (BVHTriangle ℚ))
    (hN : 2 ≤ ts.length) (hsep : List.Pairwise centroidSeparated ts) :
    ∃ T : BVHTree ℚ,
      (BVHTree.empty.insertAll ts).calculateTree = some T ∧
      ts.length ≤ T.countLeaves ∧
      ((T.leaves.flatMap BVHTree.triangles).map BVHTriangle.getHash).Perm
        (ts.map BVHTriangle.getHash) ∧
      ((T.leaves.flatMap BVHTree.triangles).map BVHTriangle.getHash).Nodup := by
  have hnd : (ts.map BVHTriangle.getHash).Nodup :=
    List.pairwise_map.mpr (hsep.imp fun h => centroidSeparated_hash_ne h)
  have hne : ts ≠ [] := by
    intro h
    rw [h] at hN
    simp at hN
  obtain ⟨sorted, hperm, hcalc⟩ := calculateTree_insertAll ts hne hnd
  have hndsorted : (sorted.map BVHTriangle.getHash).Nodup :=
    (List.Perm.nodup_iff (hperm.map _)).mpr hnd
  obtain ⟨pleaf, cleaf⟩ := buildBVHTree_leaf_partition sorted hndsorted
  refine ⟨_, hcalc, ?_, ?_, ?_⟩
  · rw [cleaf, hperm.length_eq]
    omega
  · exact (pleaf.map _).trans (hperm.map _)
  · exact (List.Perm.nodup_iff ((pleaf.map _).trans (hperm.map _))).mpr hnd

/-- C1 witness: two concrete triangles with centroids 9 apart on x. -/
theorem C1_witness :
    (2 ≤ ([(⟨⟨0,0,0⟩, ⟨3,0,0⟩, ⟨0,3,0⟩⟩ : BVHTriangle ℚ),
           ⟨⟨9,0,0⟩, ⟨12,0,0⟩, ⟨9,3,0⟩⟩] : List (BVHTriangle ℚ)).length ∧
      List.Pairwise centroidSeparated
        ([⟨⟨0,0,0⟩, ⟨3,0,0⟩, ⟨0,3,0⟩⟩, ⟨⟨9,0,0⟩, ⟨12,0,0⟩, ⟨9,3,0⟩⟩]
          : List (BVHTriangle ℚ))) ∧
    (∃ T : BVHTree ℚ,
      (BVHTree.empty.insertAll
        [⟨⟨0,0,0⟩, ⟨3,0,0⟩, ⟨0,3,0⟩⟩, ⟨⟨9,0,0⟩, ⟨12,0,0⟩, ⟨9,3,0⟩⟩]).calculateTree
        = some T ∧
      ([(⟨⟨0,0,0⟩, ⟨3,0,0⟩, ⟨0,3,0⟩⟩ : BVHTriangle ℚ),
        ⟨⟨9,0,0⟩, ⟨12,0,0⟩, ⟨9,3,0⟩⟩] : List (BVHTriangle ℚ)).length
          ≤ T.countLeaves ∧
      ((T.leaves.flatMap BVHTree.triangles).map BVHTriangle.getHash).Perm
        (([⟨⟨0,0,0⟩, ⟨3,0,0⟩, ⟨0,3,0⟩⟩, ⟨⟨9,0,0⟩, ⟨12,0,0⟩, ⟨9,3,0⟩⟩]
          : List (BVHTriangle ℚ)).map BVHTriangle.getHash) ∧
      ((T.leaves.flatMap BVHTree.triangles).map BVHTriangle.getHash).Nodup) := by
  have hsep : List.Pairwise centroidSeparated
      ([⟨⟨0,0,0⟩, ⟨3,0,0⟩, ⟨0,3,0⟩⟩, ⟨⟨9,0,0⟩, ⟨12,0,0⟩, ⟨9,3,0⟩⟩]
        : List (BVHTriangle ℚ)) := by
    refine List.Pairwise.cons ?_ (List.pairwise_singleton _ _)
    intro b hb
    simp only [List.mem_singleton] at hb
    subst hb
    unfold centroidSeparated
    left
    norm_num [BVHTriangle.getCentroid]
  exact ⟨⟨by norm_num, hsep⟩,
    C1_build_leaves_partition _ (by norm_num) hsep⟩

/-- C4 counterexample: the build operation (`calculateTree`) applied to a tree
whose bounding box was never initialized — no triangle was ever inserted —
runs into the undefined bounding-box diagonal inside `getSortedTriangles` and
throws (`none` models the thrown `Error`), contradicting the claim that this
condition is never raised as an error from the build operation. -/
theorem C4_counterexample_empty_build_raises :
    (BVHTree.empty : BVHTree ℚ).calculateTree = none := rfl

/-- C4 (amended): the top-level build operation raises (the `none` result)
exactly when the root bounding box was never initialized; within the recursion
the fallback condition cannot occur, because inserting any nonempty triangle
list always initializes the node's bounding box, so the recursive positional
fallback is never exercised and in particular never raises. -/
theorem C4_build_error_is_uninitialized_box :
    (∀ t : BVHTree ℚ, t.calculateTree = none ↔ t.boundingBox.box = none) ∧
    (∀ ts : List (BVHTriangle ℚ), ts ≠ [] →
      (BVHTree.empty.insertAll ts).boundingBox.getDiagonal ≠ none) := by
  constructor
  · intro t
    cases hbox : t.boundingBox.box with
    | none =>
        simp [BVHTree.calculateTree, BVHTree.getSortedTriangles,
          BVHBoundingBox.getDiagonal, hbox]
    | some pr =>
        obtain ⟨mn, mx⟩ := pr
        simp [BVHTree.calculateTree, BVHTree.getSortedTriangles,
          BVHBoundingBox.getDiagonal, hbox]
  · intro ts hne hcontra
    have hsome := insertAll_box_isSome ts hne
    cases hb : (BVHTree.empty.insertAll ts).boundingBox.box with
    | none => rw [hb] at hsome; simp at hsome
    | some pr =>
        obtain ⟨mn, mx⟩ := pr
        rw [BVHBoundingBox.getDiagonal, hb] at hcontra
        simp at hcontra

/-- C4 witness: a single concrete triangle initializes the root box, so the
recursive fallback condition is indeed absent there. -/
theorem C4_witness :
    (([(⟨⟨0,0,0⟩, ⟨3,0,0⟩, ⟨0,3,0⟩⟩ : BVHTriangle ℚ)]
        : List (BVHTriangle ℚ)) ≠ []) ∧
    (BVHTree.empty.insertAll
        [(⟨⟨0,0,0⟩, ⟨3,0,0⟩, ⟨0,3,0⟩⟩ : BVHTriangle ℚ)]).boundingBox.getDiagonal
      ≠ none :=
  ⟨by simp,
    C4_build_error_is_uninitialized_box.2
      [⟨⟨0,0,0⟩, ⟨3,0,0⟩, ⟨0,3,0⟩⟩] (by simp)⟩

/-- C9: inserting a triangle whose hash is already recorded reports failure
and leaves the node — triangle list, hash set and bounding box — unchanged;
the `BVHTriangle` constructor throws exactly when all three vertex hashes
coincide, so two coincident vertices with a distinct third construct fine. -/
theorem C9_duplicate_insert_and_degenerate_construction :
    (∀ (n : BVHTree ℚ) (t : BVHTriangle ℚ), t.getHash ∈ n.triangleHashes →
      n.addTriangle t
        = (n, ⟨false, some "Given triangle is already included."⟩)) ∧
    (∀ v1 v2 v3 : Vertex3 ℚ, BVHTriangle.create v1 v2 v3 = none ↔
      (v1.getHash = v2.getHash ∧ v2.getHash = v3.getHash)) ∧
    (∀ v1 v2 v3 : Vertex3 ℚ, v1.getHash = v2.getHash →
      v2.getHash ≠ v3.getHash → (BVHTriangle.create v1 v2 v3).isSome) := by
  refine ⟨addTriangle_dup, ?_, ?_⟩
  · intro v1 v2 v3
    constructor
    · intro h
      by_cases hc : (v1.getHash = v2.getHash ∧ v2.getHash = v3.getHash ∧
          v3.getHash = v1.getHash)
      · exact ⟨hc.1, hc.2.1⟩
      · rw [BVHTriangle.create, if_neg hc] at h
        exact absurd h (by simp)
    · intro h
      rw [BVHTriangle.create, if_pos ⟨h.1, h.2, (h.1.trans h.2).symm⟩]
  · intro v1 v2 v3 h12 h23
    rw [BVHTriangle.create, if_neg (by intro hc; exact h23 hc.2.1)]
    simp

/-- C9 witness: re-inserting the very triangle already present is rejected
with no state change, and both degeneracy cases of the constructor behave as
characterized. -/
theorem C9_witness :
    ((⟨⟨0,0,0⟩, ⟨3,0,0⟩, ⟨0,3,0⟩⟩ : BVHTriangle ℚ).getHash
        ∈ (((BVHTree.empty : BVHTree ℚ).addTriangle
            ⟨⟨0,0,0⟩, ⟨3,0,0⟩, ⟨0,3,0⟩⟩).1).triangleHashes ∧
      (((BVHTree.empty : BVHTree ℚ).addTriangle
            ⟨⟨0,0,0⟩, ⟨3,0,0⟩, ⟨0,3,0⟩⟩).1).addTriangle
          (⟨⟨0,0,0⟩, ⟨3,0,0⟩, ⟨0,3,0⟩⟩ : BVHTriangle ℚ)
        = (((BVHTree.empty : BVHTree ℚ).addTriangle
              ⟨⟨0,0,0⟩, ⟨3,0,0⟩, ⟨0,3,0⟩⟩).1,
            ⟨false, some "Given triangle is already included."⟩)) ∧
    ((⟨0,0,0⟩ : Vertex3 ℚ).getHash = (⟨0,0,0⟩ : Vertex3 ℚ).getHash ∧
      (⟨0,0,0⟩ : Vertex3 ℚ).getHash ≠ (⟨1,0,0⟩ : Vertex3 ℚ).getHash ∧
      (BVHTriangle.create (⟨0,0,0⟩ : Vertex3 ℚ) ⟨0,0,0⟩ ⟨1,0,0⟩).isSome) := by
  have hmem : (⟨⟨0,0,0⟩, ⟨3,0,0⟩, ⟨0,3,0⟩⟩ : BVHTriangle ℚ).getHash
      ∈ (((BVHTree.empty : BVHTree ℚ).addTriangle
          ⟨⟨0,0,0⟩, ⟨3,0,0⟩, ⟨0,3,0⟩⟩).1).triangleHashes := by
    simp [BVHTree.addTriangle, BVHTree.empty, BVHTree.triangleHashes]
  have hne : (⟨0,0,0⟩ : Vertex3 ℚ).getHash ≠ (⟨1,0,0⟩ : Vertex3 ℚ).getHash := by
    norm_num [Vertex3.getHash, round_eq, Prod.ext_iff]
  exact ⟨⟨hmem,
      C9_duplicate_insert_and_degenerate_construction.1 _ _ hmem⟩,
    rfl, hne,
    C9_duplicate_insert_and_degenerate_construction.2.2 _ _ _ rfl hne⟩

/-! ### Bounding-box invariants (C10) -/

/-- Componentwise order on vertices. -/
def vleq {α : Type} [LinearOrderedField α] (a b : Vertex3 α) : Prop :=
  a.x ≤ b.x ∧ a.y ≤ b.y ∧ a.z ≤ b.z

/-- A sequence of `addVertex` calls starting from a given box (claim-side
plumbing for quantifying over call sequences). -/
def addVertexSeq {α : Type} [LinearOrderedField α] [FloorRing α]
    (b : BVHBoundingBox α) (vs : List (Vertex3 α)) : BVHBoundingBox α :=
  vs.foldl (fun c v => (c.addVertex v).1) b

theorem addVertex_preserves_ordered {α : Type} [LinearOrderedField α]
    [FloorRing α] (b : BVHBoundingBox α) (v : Vertex3 α)
    (h : ∀ mn mx, b.box = some (mn, mx) → vleq mn mx) :
    ∀ mn mx, ((b.addVertex v).1).box = some (mn, mx) → vleq mn mx := by
  intro mn mx hbox
  by_cases hm : v.getHash ∈ b.vertexHashes
  · rw [BVHBoundingBox.addVertex] at hbox
    simp only [hm, if_pos] at hbox
    exact h mn mx hbox
  · cases hb : b.box with
    | none =>
        rw [BVHBoundingBox.addVertex] at hbox
        simp only [hm, if_neg, hb, Option.some_inj, Prod.mk.injEq,
          not_false_iff] at hbox
        obtain ⟨h1, h2⟩ := hbox
        subst h1; subst h2
        exact ⟨le_refl _, le_refl _, le_refl _⟩
    | some pr =>
        obtain ⟨mn0, mx0⟩ := pr
        obtain ⟨hx, hy, hz⟩ := h mn0 mx0 hb
        rw [BVHBoundingBox.addVertex] at hbox
        simp only [hm, if_neg, hb, Option.some_inj, Prod.mk.injEq,
          not_false_iff] at hbox
        obtain ⟨h1, h2⟩ := hbox
        subst h1; subst h2
        refine ⟨?_, ?_, ?_⟩
        · exact le_trans (min_le_left _ _) (le_trans hx (le_max_left _ _))
        · exact le_trans (min_le_left _ _) (le_trans hy (le_max_left _ _))
        · exact le_trans (min_le_left _ _) (le_trans hz (le_max_left _ _))

/-- C10: along any sequence of `addVertex` calls from a fresh box the
initialized box satisfies `min ≤ max` componentwise; a vertex accepted with a
new quantized hash succeeds and lies within `[min, max]` right afterwards; a
vertex whose hash is already present is rejected with the whole box state —
including min and max — unchanged. -/
theorem C10_bounding_box_invariants :
    (∀ (vs : List (Vertex3 ℚ)) (mn mx : Vertex3 ℚ),
      (addVertexSeq BVHBoundingBox.create vs).box = some (mn, mx) →
        vleq mn mx) ∧
    (∀ (b : BVHBoundingBox ℚ) (v : Vertex3 ℚ), v.getHash ∉ b.vertexHashes →
      ∃ mn mx, ((b.addVertex v).1).box = some (mn, mx) ∧ vleq mn v ∧
        vleq v mx ∧ ((b.addVertex v).2).result = true) ∧
    (∀ (b : BVHBoundingBox ℚ) (v : Vertex3 ℚ), v.getHash ∈ b.vertexHashes →
      b.addVertex v = (b, ⟨false, some "Given point is already included."⟩)) := by
  refine ⟨?_, ?_, ?_⟩
  · have hgen : ∀ (vs : List (Vertex3 ℚ)) (b : BVHBoundingBox ℚ),
        (∀ mn mx, b.box = some (mn, mx) → vleq mn mx) →
        ∀ mn mx, (addVertexSeq b vs).box = some (mn, mx) → vleq mn mx := by
      intro vs
      induction vs with
      | nil => intro b hb; simpa [addVertexSeq] using hb
      | cons v rest ih =>
          intro b hb
          have hstep : addVertexSeq b (v :: rest)
              = addVertexSeq (b.addVertex v).1 rest := by
            simp [addVertexSeq]
          rw [hstep]
          exact ih _ (addVertex_preserves_ordered b v hb)
    intro vs
    exact hgen vs BVHBoundingBox.create (by
      intro mn mx h
      simp [BVHBoundingBox.create] at h)
  · intro b v hm
    cases hb : b.box with
    | none =>
        refine ⟨v, v, ?_, ?_, ?_, ?_⟩
        · simp [BVHBoundingBox.addVertex, hm, hb]
        · exact ⟨le_refl _, le_refl _, le_refl _⟩
        · exact ⟨le_refl _, le_refl _, le_refl _⟩
        · simp [BVHBoundingBox.addVertex, hm]
    | some pr =>
        obtain ⟨mn0, mx0⟩ := pr
        refine ⟨⟨min mn0.x v.x, min mn0.y v.y, min mn0.z v.z⟩,
          ⟨max mx0.x v.x, max mx0.y v.y, max mx0.z v.z⟩, ?_, ?_, ?_, ?_⟩
        · simp [BVHBoundingBox.addVertex, hm, hb]
        · exact ⟨min_le_right _ _, min_le_right _ _, min_le_right _ _⟩
        · exact ⟨le_max_right _ _, le_max_right _ _, le_max_right _ _⟩
        · simp [BVHBoundingBox.addVertex, hm]
  · intro b v hm
    simp [BVHBoundingBox.addVertex, hm]

/-- C10 witness: a concrete two-vertex sequence, a fresh third vertex and a
duplicate re-insertion exercise all three conjuncts. -/
theorem C10_witness :
    ((addVertexSeq BVHBoundingBox.create
        [(⟨1,2,3⟩ : Vertex3 ℚ), ⟨-1,5,0⟩]).box
      = some (⟨-1,2,0⟩, ⟨1,5,3⟩) ∧ vleq (⟨-1,2,0⟩ : Vertex3 ℚ) ⟨1,5,3⟩) ∧
    ((⟨7,7,7⟩ : Vertex3 ℚ).getHash ∉
        (addVertexSeq BVHBoundingBox.create
          [(⟨1,2,3⟩ : Vertex3 ℚ), ⟨-1,5,0⟩]).vertexHashes ∧
      ∃ mn mx, (((addVertexSeq BVHBoundingBox.create
          [(⟨1,2,3⟩ : Vertex3 ℚ), ⟨-1,5,0⟩]).addVertex ⟨7,7,7⟩).1).box
          = some (mn, mx) ∧ vleq mn ⟨7,7,7⟩ ∧ vleq (⟨7,7,7⟩ : Vertex3 ℚ) mx ∧
        (((addVertexSeq BVHBoundingBox.create
          [(⟨1,2,3⟩ : Vertex3 ℚ), ⟨-1,5,0⟩]).addVertex ⟨7,7,7⟩).2).result
          = true) := by
  have hbox : (addVertexSeq BVHBoundingBox.create
      [(⟨1,2,3⟩ : Vertex3 ℚ), ⟨-1,5,0⟩]).box = some (⟨-1,2,0⟩, ⟨1,5,3⟩) := by
    norm_num [addVertexSeq, BVHBoundingBox.addVertex, BVHBoundingBox.create,
      Vertex3.getHash, round_eq, Prod.ext_iff, min_def, max_def]
  have hfresh : (⟨7,7,7⟩ : Vertex3 ℚ).getHash ∉
      (addVertexSeq BVHBoundingBox.create
        [(⟨1,2,3⟩ : Vertex3 ℚ), ⟨-1,5,0⟩]).vertexHashes := by
    norm_num [addVertexSeq, BVHBoundingBox.addVertex, BVHBoundingBox.create,
      Vertex3.getHash, round_eq, Prod.ext_iff]
  exact ⟨⟨hbox, C10_bounding_box_invariants.1 _ _ _ hbox⟩,
    hfresh, C10_bounding_box_invariants.2.1 _ _ hfresh⟩

/-! ### Node-level AABB ray test (C3) -/

namespace BVHTree

variable {α : Type} [LinearOrderedField α]

/-- Source `BVHTree.isPointInside`: all three coordinates within `[min, max]`. -/
def isPointInside (pt mn mx : Vertex3 α) : Bool :=
  decide (mn.x ≤ pt.x ∧ pt.x ≤ mx.x ∧ mn.y ≤ pt.y ∧ pt.y ≤ mx.y ∧
    mn.z ≤ pt.z ∧ pt.z ≤ mx.z)

/-- Source `BVHTree.raycastOnPlane`: intersect the ray `p1 → p2` with the
plane `coord axis = value`; no point when the ray's delta on that axis is
zero, and the point is kept only if it lies inside the box. -/
def raycastOnPlane (p1 p2 : Vertex3 α) (axis : BVHSplitAxis) (value : α)
    (ptMin ptMax : Vertex3 α) : Option (Vertex3 α) :=
  let delta := p2.coord axis - p1.coord axis
  if delta = 0 then none
  else
    let t := (value - p1.coord axis) / delta
    let pt : Vertex3 α :=
      ⟨p1.x + t * (p2.x - p1.x), p1.y + t * (p2.y - p1.y),
       p1.z + t * (p2.z - p1.z)⟩
    if isPointInside pt ptMin ptMax then some pt else none

/-- Source `BVHTree.isRayCollideAABB` body (on explicit box corners): one
raycast per axis — z, x, y, each against the face selected by the ray's
direction sign on that axis — and a hit iff exactly one produced a point. -/
def isRayCollideAABB (ptMin ptMax p1 p2 : Vertex3 α) : Bool :=
  let intersections : List (Option (Vertex3 α)) :=
    [raycastOnPlane p1 p2 .Z (if p2.z - p1.z > 0 then ptMin.z else ptMax.z)
        ptMin ptMax,
     raycastOnPlane p1 p2 .X (if p2.x - p1.x > 0 then ptMin.x else ptMax.x)
        ptMin ptMax,
     raycastOnPlane p1 p2 .Y (if p2.y - p1.y > 0 then ptMin.y else ptMax.y)
        ptMin ptMax]
  (intersections.filter Option.isSome).length == 1

/-- Source `BVHTree.isRayCollideAABB` as a method on the node. While the box
is uninitialized the source corners are `min = +∞`, `max = -∞`, for which
`isPointInside` is false at every finite point, so no axis produces a point
and the test is false; we encode that case directly. -/
def isRayCollideAABBNode (t : BVHTree α) (p1 p2 : Vertex3 α) : Bool :=
  match t.boundingBox.box with
  | some (mn, mx) => isRayCollideAABB mn mx p1 p2
  | none => false

end BVHTree

/-- Claim-side description of one axis test (C3's wording): intersect the ray
with the box face on the near side implied by the ray's direction sign on the
axis — the `min` face for a positive delta, the `max` face for a negative
delta, no point at all when the delta is zero — and accept the resulting
point only if its coordinates lie within the box's extents. -/
def specAxisFacePoint {α : Type} [LinearOrderedField α]
    (ptMin ptMax p1 p2 : Vertex3 α) (axis : BVHSplitAxis) : Option (Vertex3 α) :=
  let delta := p2.coord axis - p1.coord axis
  if 0 < delta then
    let t := (ptMin.coord axis - p1.coord axis) / delta
    let pt : Vertex3 α :=
      ⟨p1.x + t * (p2.x - p1.x), p1.y + t * (p2.y - p1.y),
       p1.z + t * (p2.z - p1.z)⟩
    if ptMin.x ≤ pt.x ∧ pt.x ≤ ptMax.x ∧ ptMin.y ≤ pt.y ∧ pt.y ≤ ptMax.y ∧
        ptMin.z ≤ pt.z ∧ pt.z ≤ ptMax.z then some pt else none
  else if delta < 0 then
    let t := (ptMax.coord axis - p1.coord axis) / delta
    let pt : Vertex3 α :=
      ⟨p1.x + t * (p2.x - p1.x), p1.y + t * (p2.y - p1.y),
       p1.z + t * (p2.z - p1.z)⟩
    if ptMin.x ≤ pt.x ∧ pt.x ≤ ptMax.x ∧ ptMin.y ≤ pt.y ∧ pt.y ≤ ptMax.y ∧
        ptMin.z ≤ pt.z ∧ pt.z ≤ ptMax.z then some pt else none
  else none

/-- Each of the source's per-axis raycasts (near face chosen by the sign of
the delta, zero delta giving no point) agrees with the claim-side axis
test. -/
theorem raycast_near_face_eq_spec {α : Type} [LinearOrderedField α]
    (ptMin ptMax p1 p2 : Vertex3 α) (axis : BVHSplitAxis) :
    BVHTree.raycastOnPlane p1 p2 axis
      (if p2.coord axis - p1.coord axis > 0 then ptMin.coord axis
        else ptMax.coord axis) ptMin ptMax
      = specAxisFacePoint ptMin ptMax p1 p2 axis := by
  rcases lt_trichotomy (p2.coord axis - p1.coord axis) 0 with h | h | h
  · rw [specAxisFacePoint, BVHTree.raycastOnPlane]
    simp only [if_neg (lt_asymm h), if_pos h, if_neg (ne_of_lt h),
      gt_iff_lt]
    by_cases hin : ptMin.x ≤ p1.x + (ptMax.coord axis - p1.coord axis) /
          (p2.coord axis - p1.coord axis) * (p2.x - p1.x) ∧
        p1.x + (ptMax.coord axis - p1.coord axis) /
          (p2.coord axis - p1.coord axis) * (p2.x - p1.x) ≤ ptMax.x ∧
        ptMin.y ≤ p1.y + (ptMax.coord axis - p1.coord axis) /
          (p2.coord axis - p1.coord axis) * (p2.y - p1.y) ∧
        p1.y + (ptMax.coord axis - p1.coord axis) /
          (p2.coord axis - p1.coord axis) * (p2.y - p1.y) ≤ ptMax.y ∧
        ptMin.z ≤ p1.z + (ptMax.coord axis - p1.coord axis) /
          (p2.coord axis - p1.coord axis) * (p2.z - p1.z) ∧
        p1.z + (ptMax.coord axis - p1.coord axis) /
          (p2.coord axis - p1.coord axis) * (p2.z - p1.z) ≤ ptMax.z <;>
      simp [BVHTree.isPointInside, hin]
  · rw [specAxisFacePoint, BVHTree.raycastOnPlane]
    simp [h]
  · rw [specAxisFacePoint, BVHTree.raycastOnPlane]
    simp only [if_pos h, if_pos (by exact h : (0:α) < p2.coord axis - p1.coord axis),
      if_neg (ne_of_gt h), gt_iff_lt]
    by_cases hin : ptMin.x ≤ p1.x + (ptMin.coord axis - p1.coord axis) /
          (p2.coord axis - p1.coord axis) * (p2.x - p1.x) ∧
        p1.x + (ptMin.coord axis - p1.coord axis) /
          (p2.coord axis - p1.coord axis) * (p2.x - p1.x) ≤ ptMax.x ∧
        ptMin.y ≤ p1.y + (ptMin.coord axis - p1.coord axis) /
          (p2.coord axis - p1.coord axis) * (p2.y - p1.y) ∧
        p1.y + (ptMin.coord axis - p1.coord axis) /
          (p2.coord axis - p1.coord axis) * (p2.y - p1.y) ≤ ptMax.y ∧
        ptMin.z ≤ p1.z + (ptMin.coord axis - p1.coord axis) /
          (p2.coord axis - p1.coord axis) * (p2.z - p1.z) ∧
        p1.z + (ptMin.coord axis - p1.coord axis) /
          (p2.coord axis - p1.coord axis) * (p2.z - p1.z) ≤ ptMax.z <;>
      simp [BVHTree.isPointInside, hin]

/-- C3: the node-level AABB ray test reports a hit iff exactly one of the
three per-axis tests — each intersecting the ray with the box face on the
near side implied by the ray's direction sign on that axis, producing no
point when the delta on that axis is zero, and accepting the point only if
its coordinates lie within the box's extents — yields an in-box point. -/
theorem C3_aabb_exactly_one_axis (ptMin ptMax p1 p2 : Vertex3 ℚ) :
    BVHTree.isRayCollideAABB ptMin ptMax p1 p2 = true ↔
    (([BVHSplitAxis.X, BVHSplitAxis.Y, BVHSplitAxis.Z].filter
      fun a => (specAxisFacePoint ptMin ptMax p1 p2 a).isSome).length = 1) := by
  have ez := raycast_near_face_eq_spec ptMin ptMax p1 p2 .Z
  have ex := raycast_near_face_eq_spec ptMin ptMax p1 p2 .X
  have ey := raycast_near_face_eq_spec ptMin ptMax p1 p2 .Y
  simp only [Vertex3.coord] at ez ex ey
  rw [BVHTree.isRayCollideAABB]
  simp only [ez, ex, ey]
  cases hX : specAxisFacePoint ptMin ptMax p1 p2 .X <;>
    cases hY : specAxisFacePoint ptMin ptMax p1 p2 .Y <;>
    cases hZ : specAxisFacePoint ptMin ptMax p1 p2 .Z <;>
    simp [List.filter, hX, hY, hZ]

/-! ### Real-valued vector operations

`Math.sqrt`, `Math.cos` and `Math.sin` force the remaining embeddings — the
BVH ray/triangle solve, line evaluation and the SAT collision engine — to
live over `ℝ`; the definitions are necessarily noncomputable there. -/

namespace Vertex3

/-- Source `BVHVertex.getLength` / `VectorUtils.getSize`. -/
noncomputable def getLength (v : Vertex3 ℝ) : ℝ :=
  Real.sqrt (v.x ^ 2 + v.y ^ 2 + v.z ^ 2)

/-- Source `BVHVertex.normalized`: divides by the length with no zero check
(JavaScript produces `NaN`/`Infinity` components for the zero vector; in the
real-number embedding division by zero yields the zero vector, and every use
below rejects that case through a zero determinant exactly as the `NaN`
comparisons reject it). -/
noncomputable def normalized (v : Vertex3 ℝ) : Vertex3 ℝ :=
  ⟨v.x / v.getLength, v.y / v.getLength, v.z / v.getLength⟩

end Vertex3

/-! ### Ray/triangle intersection (C2) -/

namespace BVHTriangle

/-- The 3×3 determinant of the barycentric solve (the source expression
`V1V2.dot(d.cross(V1V3))` with `d` the normalized direction `pt1 → pt2`),
computed identically by `isDetZero` and `getPointOnTrianglePlane`. -/
noncomputable def rayDet (tri : BVHTriangle ℝ) (pt1 pt2 : Vertex3 ℝ) : ℝ :=
  let V1V2 := tri.v2.subtract tri.v1
  let V1V3 := tri.v3.subtract tri.v1
  let d := (pt2.subtract pt1).normalized
  V1V2.dot (d.cross V1V3)

/-- Source `BVHTriangle.isDetZero`: the determinant is exactly zero. -/
noncomputable def isDetZero (tri : BVHTriangle ℝ) (pt1 pt2 : Vertex3 ℝ) : Bool :=
  decide (tri.rayDet pt1 pt2 = 0)

/-- Barycentric weight `v` of the solve (source
`d.dot(V1V3.cross(V1P1)) / det`). -/
noncomputable def rayV (tri : BVHTriangle ℝ) (pt1 pt2 : Vertex3 ℝ) : ℝ :=
  let V1V3 := tri.v3.subtract tri.v1
  let V1P1 := pt1.subtract tri.v1
  let d := (pt2.subtract pt1).normalized
  d.dot (V1V3.cross V1P1) / tri.rayDet pt1 pt2

/-- Barycentric weight `w` of the solve (source
`d.dot(V1P1.cross(V1V2)) / det`). -/
noncomputable def rayW (tri : BVHTriangle ℝ) (pt1 pt2 : Vertex3 ℝ) : ℝ :=
  let V1V2 := tri.v2.subtract tri.v1
  let V1P1 := pt1.subtract tri.v1
  let d := (pt2.subtract pt1).normalized
  d.dot (V1P1.cross V1V2) / tri.rayDet pt1 pt2

/-- Barycentric weight `u = 1 - (v + w)`. -/
noncomputable def rayU (tri : BVHTriangle ℝ) (pt1 pt2 : Vertex3 ℝ) : ℝ :=
  1 - (tri.rayV pt1 pt2 + tri.rayW pt1 pt2)

/-- Source `BVHTriangle.getPointOnTrianglePlane`: reject on a zero
determinant, solve for the barycentric weights, and return
`u·V1 + v·V2 + w·V3` only when all of `u`, `v`, `w` lie in `[0, 1]`. -/
noncomputable def getPointOnTrianglePlane (tri : BVHTriangle ℝ)
    (pt1 pt2 : Vertex3 ℝ) : Option (Vertex3 ℝ) :=
  if tri.isDetZero pt1 pt2 then none
  else
    let v := tri.rayV pt1 pt2
    let w := tri.rayW pt1 pt2
    let u := 1 - (v + w)
    let result := ((tri.v1.multiply u).add (tri.v2.multiply v)).add
      (tri.v3.multiply w)
    if u ≥ 0 ∧ u ≤ 1 ∧ v ≥ 0 ∧ v ≤ 1 ∧ w ≥ 0 ∧ w ≤ 1 then some result
    else none

end BVHTriangle

/-- The leaf loop of the source `getRayCollision`: test the triangles in
order; a triangle whose plane solve yields a point is returned immediately
when `onlyOnLine` is false or the point lies between the endpoints (the dot
product of the two offset vectors is non-positive); otherwise scanning
continues. -/
noncomputable def rayLeafScan :
    List (BVHTriangle ℝ) → Vertex3 ℝ → Vertex3 ℝ → Bool → Option (Vertex3 ℝ)
  | [], _, _, _ => none
  | tri :: rest, p1, p2, onlyOnLine =>
    match tri.getPointOnTrianglePlane p1 p2 with
    | none => rayLeafScan rest p1 p2 onlyOnLine
    | some ptTest =>
      if onlyOnLine = false ∨ (ptTest.subtract p1).dot (ptTest.subtract p2) ≤ 0
      then some ptTest
      else rayLeafScan rest p1 p2 onlyOnLine

/-- Source `BVHTree.getRayCollision`: prune by the AABB test, scan the
triangle list when the node has no children, then fall through to the left
child's result or else the right child's. -/
noncomputable def BVHTree.getRayCollision :
    BVHTree ℝ → Vertex3 ℝ → Vertex3 ℝ → Bool → Option (Vertex3 ℝ)
  | .mk ts hs bb l r, p1, p2, onlyOnLine =>
    if (BVHTree.mk ts hs bb l r).isRayCollideAABBNode p1 p2 = false then none
    else
      let leafHit : Option (Vertex3 ℝ) :=
        if l.isNone ∧ r.isNone then rayLeafScan ts p1 p2 onlyOnLine else none
      leafHit.orElse fun _ =>
        (match l with
          | some lc => BVHTree.getRayCollision lc p1 p2 onlyOnLine
          | none => none).orElse fun _ =>
          match r with
          | some rc => BVHTree.getRayCollision rc p1 p2 onlyOnLine
          | none => none

/-- The per-triangle pass function of the claim: the barycentric point if the
triangle passes, thinned by the segment test when `onlyOnSegment` is set. -/
noncomputable def trianglePassPoint (p1 p2 : Vertex3 ℝ) (onlyOnLine : Bool)
    (tri : BVHTriangle ℝ) : Option (Vertex3 ℝ) :=
  match tri.getPointOnTrianglePlane p1 p2 with
  | none => none
  | some pt =>
    if onlyOnLine = false ∨ (pt.subtract p1).dot (pt.subtract p2) ≤ 0
    then some pt
    else none

theorem rayLeafScan_eq_findSome (ts : List (BVHTriangle ℝ))
    (p1 p2 : Vertex3 ℝ) (onlyOnLine : Bool) :
    rayLeafScan ts p1 p2 onlyOnLine
      = ts.findSome? (trianglePassPoint p1 p2 onlyOnLine) := by
  induction ts with
  | nil => simp [rayLeafScan]
  | cons tri rest ih =>
    rw [rayLeafScan, List.findSome?_cons]
    cases hpt : tri.getPointOnTrianglePlane p1 p2 with
    | none => simpa [trianglePassPoint, hpt] using ih
    | some pt =>
      by_cases hon : onlyOnLine = false ∨
          (pt.subtract p1).dot (pt.subtract p2) ≤ 0 <;>
        simp [trianglePassPoint, hpt, hon, ih]

/-- C2: (i) the per-triangle solve returns a point exactly when the 3×3
determinant is nonzero — a zero determinant rejects the triangle — and all
barycentric weights `u`, `v`, `w` lie in `[0, 1]`, the point being
`u·V1 + v·V2 + w·V3`; (ii) on a leaf node whose AABB test passes,
`getRayCollision` returns the point of the first triangle in leaf order that
passes, where with `onlyOnSegment` set a triangle additionally needs a
non-positive dot product of the two offset vectors from its hit point to `p1`
and to `p2`. -/
theorem C2_leaf_barycentric_first_hit :
    (∀ (tri : BVHTriangle ℝ) (p1 p2 pt : Vertex3 ℝ),
      tri.getPointOnTrianglePlane p1 p2 = some pt ↔
        (tri.rayDet p1 p2 ≠ 0 ∧
         0 ≤ tri.rayU p1 p2 ∧ tri.rayU p1 p2 ≤ 1 ∧
         0 ≤ tri.rayV p1 p2 ∧ tri.rayV p1 p2 ≤ 1 ∧
         0 ≤ tri.rayW p1 p2 ∧ tri.rayW p1 p2 ≤ 1 ∧
         pt = ((tri.v1.multiply (tri.rayU p1 p2)).add
            (tri.v2.multiply (tri.rayV p1 p2))).add
            (tri.v3.multiply (tri.rayW p1 p2)))) ∧
    (∀ (t : BVHTree ℝ) (p1 p2 : Vertex3 ℝ) (flag : Bool),
      t.leftChild = none → t.rightChild = none →
      t.isRayCollideAABBNode p1 p2 = true →
      t.getRayCollision p1 p2 flag
        = t.triangles.findSome? (trianglePassPoint p1 p2 flag)) := by
  constructor
  · intro tri p1 p2 pt
    simp only [BVHTriangle.getPointOnTrianglePlane, BVHTriangle.isDetZero,
      BVHTriangle.rayU]
    by_cases hdet : tri.rayDet p1 p2 = 0
    · simp [hdet]
    · rw [if_neg (by simp [hdet] :
        ¬ (decide (tri.rayDet p1 p2 = 0) = true))]
      by_cases hb : 1 - (tri.rayV p1 p2 + tri.rayW p1 p2) ≥ 0 ∧
          1 - (tri.rayV p1 p2 + tri.rayW p1 p2) ≤ 1 ∧
          tri.rayV p1 p2 ≥ 0 ∧ tri.rayV p1 p2 ≤ 1 ∧
          tri.rayW p1 p2 ≥ 0 ∧ tri.rayW p1 p2 ≤ 1
      · rw [if_pos hb]
        constructor
        · intro h
          exact ⟨hdet, hb.1, hb.2.1, hb.2.2.1, hb.2.2.2.1, hb.2.2.2.2.1,
            hb.2.2.2.2.2, (Option.some.inj h).symm⟩
        · intro h
          rw [h.2.2.2.2.2.2.2]
      · rw [if_neg hb]
        constructor
        · intro h
          exact absurd h (by simp)
        · intro h
          exact absurd ⟨h.2.1, h.2.2.1, h.2.2.2.1, h.2.2.2.2.1, h.2.2.2.2.2.1,
            h.2.2.2.2.2.2.1⟩ hb
  · intro t p1 p2 flag hl hr hAABB
    cases t with
    | mk ts hs bb l r =>
      simp only [BVHTree.leftChild, BVHTree.rightChild] at hl hr
      subst hl; subst hr
      rw [BVHTree.getRayCollision, hAABB]
      simp only [Bool.true_eq_false, if_neg, Option.isNone_none, and_self,
        if_pos, if_true, not_false_eq_true, BVHTree.triangles]
      rw [rayLeafScan_eq_findSome]
      cases ts.findSome? (trianglePassPoint p1 p2 flag) <;>
        simp [Option.orElse]

/-- C2 witness: a one-triangle leaf whose bounding box the segment
`(0,0,-2) → (0,0,2)` pierces through exactly one near face. -/
theorem C2_witness :
    ((BVHTree.mk [(⟨⟨-1,-1,0⟩, ⟨1,-1,0⟩, ⟨0,1,0⟩⟩ : BVHTriangle ℝ)] []
        ⟨[], some (⟨-1,-1,-1⟩, ⟨1,1,1⟩)⟩ none none).leftChild = none ∧
      (BVHTree.mk [(⟨⟨-1,-1,0⟩, ⟨1,-1,0⟩, ⟨0,1,0⟩⟩ : BVHTriangle ℝ)] []
        ⟨[], some (⟨-1,-1,-1⟩, ⟨1,1,1⟩)⟩ none none).rightChild = none ∧
      (BVHTree.mk [(⟨⟨-1,-1,0⟩, ⟨1,-1,0⟩, ⟨0,1,0⟩⟩ : BVHTriangle ℝ)] []
        ⟨[], some (⟨-1,-1,-1⟩, ⟨1,1,1⟩)⟩ none none).isRayCollideAABBNode
        ⟨0,0,-2⟩ ⟨0,0,2⟩ = true) ∧
    (BVHTree.mk [(⟨⟨-1,-1,0⟩, ⟨1,-1,0⟩, ⟨0,1,0⟩⟩ : BVHTriangle ℝ)] []
        ⟨[], some (⟨-1,-1,-1⟩, ⟨1,1,1⟩)⟩ none none).getRayCollision
        ⟨0,0,-2⟩ ⟨0,0,2⟩ true
      = ((BVHTree.mk [(⟨⟨-1,-1,0⟩, ⟨1,-1,0⟩, ⟨0,1,0⟩⟩ : BVHTriangle ℝ)] []
          ⟨[], some (⟨-1,-1,-1⟩, ⟨1,1,1⟩)⟩ none none).triangles.findSome?
          (trianglePassPoint ⟨0,0,-2⟩ ⟨0,0,2⟩ true)) := by
  have hAABB : (BVHTree.mk
      [(⟨⟨-1,-1,0⟩, ⟨1,-1,0⟩, ⟨0,1,0⟩⟩ : BVHTriangle ℝ)] []
      ⟨[], some (⟨-1,-1,-1⟩, ⟨1,1,1⟩)⟩ none none).isRayCollideAABBNode
      ⟨0,0,-2⟩ ⟨0,0,2⟩ = true := by
    norm_num [BVHTree.isRayCollideAABBNode, BVHTree.boundingBox,
      BVHTree.isRayCollideAABB, BVHTree.raycastOnPlane, BVHTree.isPointInside,
      Vertex3.coord, List.filter]
  exact ⟨⟨rfl, rfl, hAABB⟩,
    C2_leaf_barycentric_first_hit.2 _ _ _ true rfl rfl hAABB⟩

/-! ### VectorUtils (real-valued parts) and LineEvaluation -/

/-- Line through two points (source type `Line`). -/
structure Line where
  p0 : Vertex3 ℝ
  p1 : Vertex3 ℝ

namespace VectorUtils

/-- Source `VectorUtils.getSize`. -/
noncomputable def getSize (v : Vertex3 ℝ) : ℝ :=
  Real.sqrt (v.x ^ 2 + v.y ^ 2 + v.z ^ 2)

/-- Source `VectorUtils.getDist`. -/
noncomputable def getDist (v0 v1 : Vertex3 ℝ) : ℝ :=
  Real.sqrt ((v1.x - v0.x) ^ 2 + (v1.y - v0.y) ^ 2 + (v1.z - v0.z) ^ 2)

/-- Source `VectorUtils.normalize`: the zero vector maps to itself, any other
vector is divided by its length. -/
noncomputable def normalize (v : Vertex3 ℝ) : Vertex3 ℝ :=
  if getSize v = 0 then ⟨0, 0, 0⟩
  else ⟨v.x / getSize v, v.y / getSize v, v.z / getSize v⟩

/-- Source `VectorUtils.isParallel`:
`| |dot(normalize v0, normalize v1)| - 1 | ≤ 1e-6`. -/
noncomputable def isParallel (v0 v1 : Vertex3 ℝ) : Prop :=
  |(|(normalize v0).dot (normalize v1)|) - 1| ≤ 1 / 1000000

/-- Source `VectorUtils.isParallelLines`. -/
noncomputable def isParallelLines (li0 li1 : Line) : Prop :=
  isParallel (li0.p1.subtract li0.p0) (li1.p1.subtract li1.p0)

noncomputable instance (v0 v1 : Vertex3 ℝ) : Decidable (isParallel v0 v1) := by
  unfold isParallel
  infer_instance

noncomputable instance (li0 li1 : Line) : Decidable (isParallelLines li0 li1) := by
  unfold isParallelLines isParallel
  infer_instance

/-- Source `VectorUtils.rotateOnXY`. -/
noncomputable def rotateOnXY (v : Vertex3 ℝ) (rad : ℝ) : Vertex3 ℝ :=
  ⟨v.x * Real.cos rad - v.y * Real.sin rad,
   v.x * Real.sin rad + v.y * Real.cos rad, v.z⟩

end VectorUtils

namespace LineEvaluation

/-- Source `getParameterOnLine`: unclamped parameter of the point's
projection against the segment `p0 → p1`, `0` for a zero-length segment. -/
noncomputable def getParameterOnLine (p0 p1 ptTest : Vertex3 ℝ) : ℝ :=
  let direction := p1.subtract p0
  let toTest := ptTest.subtract p0
  let lengthSquared := direction.dot direction
  if lengthSquared = 0 then 0
  else toTest.dot direction / lengthSquared

/-- Source `getFootPointOnDirection`: projection of `pt` onto the direction
anchored at the origin; fails when the direction length is below `1e-6`. -/
noncomputable def getFootPointOnDirection (direction pt : Vertex3 ℝ) :
    Option (Vertex3 ℝ × ℝ) :=
  if VectorUtils.getSize direction < 1 / 1000000 then none
  else
    let norm := VectorUtils.normalize direction
    let dSize := VectorUtils.getSize norm
    let d := norm.dot pt
    let t := d / dSize ^ 2
    some (norm.multiply t, t)

/-- Source `getFootPointOnLine`: foot of `pt` on the infinite line through
the endpoints, with the unclamped parameter `t`; fails when the direction
length is below `1e-6` (the inner `dSize === 0` check is kept although it can
never fire after the first guard). -/
noncomputable def getFootPointOnLine (line : Line) (pt : Vertex3 ℝ) :
    Option (Vertex3 ℝ × ℝ) :=
  let direction := line.p1.subtract line.p0
  if VectorUtils.getSize direction < 1 / 1000000 then none
  else
    let anchor := line.p0
    let ptMoved := pt.subtract anchor
    let norm := VectorUtils.normalize direction
    let dSize := VectorUtils.getSize norm
    if dSize = 0 then none
    else
      let d := norm.dot ptMoved
      let t := d / VectorUtils.getSize direction
      let ptOnMovedLine := norm.multiply d
      some (ptOnMovedLine.add anchor, t)

/-- Result object of `getIntersection`
(`{result: boolean, pt?: Vertex3d, message?: string}`). -/
structure IntersectionResult where
  result : Bool
  pt : Option (Vertex3 ℝ) := none
  message : Option String := none

/-- Source `getIntersection`: reject parallel directions, solve the projected
2×2 system on the XY plane, reconstruct the candidate point on both original
lines, reject skew reconstructions, and — unless `fromExtended` — require
both line parameters within `[-1e-6, 1 + 1e-6]`. (Two source message texts
contain an apostrophe; they are reproduced here without it.) -/
noncomputable def getIntersection (li0 li1 : Line) (fromExtended : Bool) :
    IntersectionResult :=
  if VectorUtils.isParallelLines li0 li1 then
    ⟨false, none, some "Parallel or same Lines"⟩
  else
    let p1p3 : Vertex3 ℝ := ⟨li1.p1.x - li0.p1.x, li1.p1.y - li0.p1.y, 0⟩
    let d0 : Vertex3 ℝ :=
      ⟨(VectorUtils.normalize (li0.p1.subtract li0.p0)).x,
       (VectorUtils.normalize (li0.p1.subtract li0.p0)).y,
       (VectorUtils.normalize (li0.p1.subtract li0.p0)).z⟩
    let d1 : Vertex3 ℝ :=
      ⟨(VectorUtils.normalize (li1.p1.subtract li1.p0)).x,
       (VectorUtils.normalize (li1.p1.subtract li1.p0)).y,
       (VectorUtils.normalize (li1.p1.subtract li1.p0)).z⟩
    let d0PlaneXY := VectorUtils.normalize ⟨d0.x, d0.y, 0⟩
    let d1PlaneXY := VectorUtils.normalize ⟨d1.x, d1.y, 0⟩
    let det := -(d0PlaneXY.x * d1PlaneXY.y) + (d1PlaneXY.x * d0PlaneXY.y)
    if |det| < 1 / 1000000 then
      ⟨false, none, some "Det is zero (parallel lines)"⟩
    else
      let dx := p1p3.x
      let dy := p1p3.y
      let t := -((d1PlaneXY.y * dx) - (d1PlaneXY.x * dy)) / det
      let u := -((d0PlaneXY.y * dx) - (d0PlaneXY.x * dy)) / det
      let ptLi0StartOnXY : Vertex3 ℝ := ⟨li0.p0.x, li0.p0.y, 0⟩
      let ptLi0EndOnXY : Vertex3 ℝ := ⟨li0.p1.x, li0.p1.y, 0⟩
      let ptLi1StartOnXY : Vertex3 ℝ := ⟨li1.p0.x, li1.p0.y, 0⟩
      let ptLi1EndOnXY : Vertex3 ℝ := ⟨li1.p1.x, li1.p1.y, 0⟩
      let ptQ := ptLi0EndOnXY.add (d0PlaneXY.multiply t)
      let ptR := ptLi1EndOnXY.add (d1PlaneXY.multiply u)
      let dist := VectorUtils.getDist ptQ ptR
      if dist > 1 / 1000000 then
        ⟨false, none, some "Each points on XY Plane is not same."⟩
      else
        let tLi0 := (ptQ.subtract ptLi0StartOnXY).dot d0PlaneXY
        let ratioLi0 := VectorUtils.getDist li0.p1 li0.p0
          / VectorUtils.getDist ptLi0EndOnXY ptLi0StartOnXY
        let vLi0 := tLi0 * ratioLi0
        let ptQ2 : Vertex3 ℝ := ⟨li0.p0.x + vLi0 * d0.x,
          li0.p0.y + vLi0 * d0.y, li0.p0.z + vLi0 * d0.z⟩
        let tLi1 := (ptR.subtract ptLi1StartOnXY).dot d1PlaneXY
        let ratioLi1 := VectorUtils.getDist li1.p1 li1.p0
          / VectorUtils.getDist ptLi1EndOnXY ptLi1StartOnXY
        let vLi1 := tLi1 * ratioLi1
        let ptR2 : Vertex3 ℝ := ⟨li1.p0.x + vLi1 * d1.x,
          li1.p0.y + vLi1 * d1.y, li1.p0.z + vLi1 * d1.z⟩
        if VectorUtils.getDist ptQ2 ptR2 > 1 / 1000000 then
          ⟨false, none, some "Two lines are on skew position."⟩
        else
          if fromExtended then ⟨true, some ptQ2, none⟩
          else
            let paramPtQ2 := getParameterOnLine li0.p0 li0.p1 ptQ2
            let paramPtR2 := getParameterOnLine li1.p0 li1.p1 ptR2
            if (-(1 / 1000000) ≤ paramPtQ2 ∧ paramPtQ2 ≤ 1 + 1 / 1000000) ∧
                (-(1 / 1000000) ≤ paramPtR2 ∧ paramPtR2 ≤ 1 + 1 / 1000000) then
              ⟨true, some ptQ2, none⟩
            else
              ⟨false, none,
                some "One of the points are placed on outside the lines domain."⟩

end LineEvaluation

/-- Unit length of the normalization of a vector of length at least `1e-6`. -/
theorem normalize_size_one (v : Vertex3 ℝ)
    (h : VectorUtils.getSize v ≠ 0) :
    VectorUtils.getSize (VectorUtils.normalize v) = 1 := by
  have hnn : (0:ℝ) ≤ v.x ^ 2 + v.y ^ 2 + v.z ^ 2 := by positivity
  have hsq : VectorUtils.getSize v ^ 2 = v.x ^ 2 + v.y ^ 2 + v.z ^ 2 :=
    Real.sq_sqrt hnn
  rw [VectorUtils.normalize, if_neg h, VectorUtils.getSize]
  have hexp : (v.x / VectorUtils.getSize v) ^ 2
      + (v.y / VectorUtils.getSize v) ^ 2
      + (v.z / VectorUtils.getSize v) ^ 2 = 1 := by
    field_simp
    rw [hsq]
  rw [hexp, Real.sqrt_one]

/-- C8: for a line whose direction length is at least `1e-6`, `footPoint`
returns a point `f` on the infinite line (`f = p0 + t·(p1 - p0)`) whose
offset from the query point is perpendicular to the direction, with `t = 0`
exactly at `f = p0` and `t = 1` exactly at `f = p1` and no clamping; for a
direction length below `1e-6` it returns no result. -/
theorem C8_foot_point_projection :
    (∀ (line : Line) (pt : Vertex3 ℝ),
      1 / 1000000 ≤ VectorUtils.getSize (line.p1.subtract line.p0) →
      ∃ f t, LineEvaluation.getFootPointOnLine line pt = some (f, t) ∧
        f = line.p0.add ((line.p1.subtract line.p0).multiply t) ∧
        (f.subtract pt).dot (line.p1.subtract line.p0) = 0 ∧
        (f = line.p0 → t = 0) ∧
        (f = line.p1 → t = 1)) ∧
    (∀ (line : Line) (pt : Vertex3 ℝ),
      VectorUtils.getSize (line.p1.subtract line.p0) < 1 / 1000000 →
      LineEvaluation.getFootPointOnLine line pt = none) := by
  constructor
  · intro line pt h
    have hSpos : 0 < VectorUtils.getSize (line.p1.subtract line.p0) :=
      lt_of_lt_of_le (by norm_num) h
    have hSne : VectorUtils.getSize (line.p1.subtract line.p0) ≠ 0 :=
      ne_of_gt hSpos
    have hnsize := normalize_size_one (line.p1.subtract line.p0) hSne
    have hfoot : LineEvaluation.getFootPointOnLine line pt
        = some (((VectorUtils.normalize (line.p1.subtract line.p0)).multiply
            ((VectorUtils.normalize (line.p1.subtract line.p0)).dot
              (pt.subtract line.p0))).add line.p0,
          ((VectorUtils.normalize (line.p1.subtract line.p0)).dot
            (pt.subtract line.p0))
            / VectorUtils.getSize (line.p1.subtract line.p0)) := by
      rw [LineEvaluation.getFootPointOnLine]
      simp only [if_neg (not_lt.mpr h), hnsize, one_ne_zero, if_neg,
        not_false_eq_true]
    set D := line.p1.subtract line.p0 with hD
    have hnn : (0:ℝ) ≤ D.x ^ 2 + D.y ^ 2 + D.z ^ 2 := by positivity
    have hsq : VectorUtils.getSize D ^ 2 = D.x ^ 2 + D.y ^ 2 + D.z ^ 2 :=
      Real.sq_sqrt hnn
    have hS2pos : 0 < D.x ^ 2 + D.y ^ 2 + D.z ^ 2 := by
      rw [← hsq]
      exact pow_pos hSpos 2
    have hS2ne : D.x ^ 2 + D.y ^ 2 + D.z ^ 2 ≠ 0 := ne_of_gt hS2pos
    have hnorm : VectorUtils.normalize D
        = ⟨D.x / VectorUtils.getSize D, D.y / VectorUtils.getSize D,
           D.z / VectorUtils.getSize D⟩ := by
      rw [VectorUtils.normalize, if_neg hSne]
    set S := VectorUtils.getSize D with hS
    have hSS : S * S = D.x ^ 2 + D.y ^ 2 + D.z ^ 2 := by
      rw [← hsq]
      ring
    have hDx : D.x = line.p1.x - line.p0.x := rfl
    have hDy : D.y = line.p1.y - line.p0.y := rfl
    have hDz : D.z = line.p1.z - line.p0.z := rfl
    refine ⟨_, _, hfoot, ?_, ?_, ?_, ?_⟩
    · rw [hnorm]
      simp only [Vertex3.add, Vertex3.multiply, Vertex3.dot, Vertex3.subtract,
        Vertex3.mk.injEq]
      refine ⟨?_, ?_, ?_⟩ <;> ring
    · rw [hnorm]
      simp only [Vertex3.add, Vertex3.multiply, Vertex3.dot, Vertex3.subtract]
      field_simp
      linear_combination (-(D.x * (pt.x - line.p0.x) + D.y * (pt.y - line.p0.y)
        + D.z * (pt.z - line.p0.z))) * hSS
    · intro hf
      rw [hnorm] at hf
      have hx := congrArg Vertex3.x hf
      have hy := congrArg Vertex3.y hf
      have hz := congrArg Vertex3.z hf
      simp only [Vertex3.add, Vertex3.multiply, Vertex3.dot,
        Vertex3.subtract] at hx hy hz
      rw [hnorm]
      simp only [Vertex3.dot, Vertex3.subtract]
      set k := D.x / S * (pt.x - line.p0.x) + D.y / S * (pt.y - line.p0.y)
        + D.z / S * (pt.z - line.p0.z) with hk
      have hx0 : D.x * k = 0 := by
        have h1 : D.x / S * k = 0 := by linarith
        have h2 : D.x * k = D.x / S * k * S := by field_simp
        rw [h2, h1, zero_mul]
      have hy0 : D.y * k = 0 := by
        have h1 : D.y / S * k = 0 := by linarith
        have h2 : D.y * k = D.y / S * k * S := by field_simp
        rw [h2, h1, zero_mul]
      have hz0 : D.z * k = 0 := by
        have h1 : D.z / S * k = 0 := by linarith
        have h2 : D.z * k = D.z / S * k * S := by field_simp
        rw [h2, h1, zero_mul]
      have hks : (D.x ^ 2 + D.y ^ 2 + D.z ^ 2) * k = 0 := by
        have e : (D.x ^ 2 + D.y ^ 2 + D.z ^ 2) * k
            = D.x * (D.x * k) + D.y * (D.y * k) + D.z * (D.z * k) := by ring
        rw [e, hx0, hy0, hz0]
        ring
      have hk0 : k = 0 := by
        rcases mul_eq_zero.mp hks with h0 | h0
        · exact absurd h0 hS2ne
        · exact h0
      rw [hk0]
      simp
    · intro hf
      rw [hnorm] at hf
      have hx := congrArg Vertex3.x hf
      have hy := congrArg Vertex3.y hf
      have hz := congrArg Vertex3.z hf
      simp only [Vertex3.add, Vertex3.multiply, Vertex3.dot,
        Vertex3.subtract] at hx hy hz
      rw [hnorm]
      simp only [Vertex3.dot, Vertex3.subtract]
      set k := D.x / S * (pt.x - line.p0.x) + D.y / S * (pt.y - line.p0.y)
        + D.z / S * (pt.z - line.p0.z) with hk
      have hx0 : D.x * k = D.x * S := by
        have h1 : D.x / S * k = D.x := by linarith [hx, hDx]
        have h2 : D.x * k = D.x / S * k * S := by field_simp
        rw [h2, h1]
      have hy0 : D.y * k = D.y * S := by
        have h1 : D.y / S * k = D.y := by linarith [hy, hDy]
        have h2 : D.y * k = D.y / S * k * S := by field_simp
        rw [h2, h1]
      have hz0 : D.z * k = D.z * S := by
        have h1 : D.z / S * k = D.z := by linarith [hz, hDz]
        have h2 : D.z * k = D.z / S * k * S := by field_simp
        rw [h2, h1]
      have hks : (D.x ^ 2 + D.y ^ 2 + D.z ^ 2) * (k - S) = 0 := by
        have e : (D.x ^ 2 + D.y ^ 2 + D.z ^ 2) * (k - S)
            = D.x * (D.x * k - D.x * S) + D.y * (D.y * k - D.y * S)
              + D.z * (D.z * k - D.z * S) := by ring
        rw [e]
        have e1 : D.x * k - D.x * S = 0 := by linarith
        have e2 : D.y * k - D.y * S = 0 := by linarith
        have e3 : D.z * k - D.z * S = 0 := by linarith
        rw [e1, e2, e3]
        ring
      have hkS : k = S := by
        rcases mul_eq_zero.mp hks with h0 | h0
        · exact absurd h0 hS2ne
        · linarith [sub_eq_zero.mp h0]
      rw [hkS]
      exact div_self hSne
  · intro line pt h
    rw [LineEvaluation.getFootPointOnLine, if_pos h]

/-- C8 witness: the segment `(0,0,0) → (2,0,0)` has length `2 ≥ 1e-6`, so the
foot of `(1,5,0)` exists with the stated properties. -/
theorem C8_witness :
    (1 / 1000000 ≤ VectorUtils.getSize
      ((⟨⟨0,0,0⟩, ⟨2,0,0⟩⟩ : Line).p1.subtract
        (⟨⟨0,0,0⟩, ⟨2,0,0⟩⟩ : Line).p0)) ∧
    (∃ f t, LineEvaluation.getFootPointOnLine (⟨⟨0,0,0⟩, ⟨2,0,0⟩⟩ : Line)
        ⟨1,5,0⟩ = some (f, t) ∧
      f = (⟨⟨0,0,0⟩, ⟨2,0,0⟩⟩ : Line).p0.add
        (((⟨⟨0,0,0⟩, ⟨2,0,0⟩⟩ : Line).p1.subtract
          (⟨⟨0,0,0⟩, ⟨2,0,0⟩⟩ : Line).p0).multiply t) ∧
      (f.subtract ⟨1,5,0⟩).dot
        ((⟨⟨0,0,0⟩, ⟨2,0,0⟩⟩ : Line).p1.subtract
          (⟨⟨0,0,0⟩, ⟨2,0,0⟩⟩ : Line).p0) = 0 ∧
      (f = (⟨⟨0,0,0⟩, ⟨2,0,0⟩⟩ : Line).p0 → t = 0) ∧
      (f = (⟨⟨0,0,0⟩, ⟨2,0,0⟩⟩ : Line).p1 → t = 1)) := by
  have hsize : VectorUtils.getSize
      ((⟨⟨0,0,0⟩, ⟨2,0,0⟩⟩ : Line).p1.subtract
        (⟨⟨0,0,0⟩, ⟨2,0,0⟩⟩ : Line).p0) = 2 := by
    simp only [VectorUtils.getSize, Vertex3.subtract]
    rw [show ((2:ℝ) - 0) ^ 2 + ((0:ℝ) - 0) ^ 2 + ((0:ℝ) - 0) ^ 2
      = 2 ^ 2 by norm_num]
    exact Real.sqrt_sq (by norm_num)
  have hge : 1 / 1000000 ≤ VectorUtils.getSize
      ((⟨⟨0,0,0⟩, ⟨2,0,0⟩⟩ : Line).p1.subtract
        (⟨⟨0,0,0⟩, ⟨2,0,0⟩⟩ : Line).p0) := by
    rw [hsize]
    norm_num
  exact ⟨hge, C8_foot_point_projection.1 ⟨⟨0,0,0⟩, ⟨2,0,0⟩⟩ ⟨1,5,0⟩ hge⟩

end JakkeGraphics

namespace JakkeGraphics

/-- C7: the crossing segments meet at exactly `(5,5,0)` (well within the
claimed `1e-6`), and the parallel segments are rejected with `result:false`
at the parallel-direction guard. -/
theorem C7_intersection_examples :
    LineEvaluation.getIntersection ⟨⟨0,0,0⟩, ⟨10,10,0⟩⟩ ⟨⟨10,0,0⟩, ⟨0,10,0⟩⟩
        false = ⟨true, some ⟨5,5,0⟩, none⟩ ∧
    LineEvaluation.getIntersection ⟨⟨0,0,0⟩, ⟨0,10,0⟩⟩ ⟨⟨1,0,0⟩, ⟨1,10,0⟩⟩
        false = ⟨false, none, some "Parallel or same Lines"⟩ := by
  refine ⟨?_, ?_⟩
  case refine_2 =>
    have hgs : VectorUtils.getSize (⟨0,10,0⟩ : Vertex3 ℝ) = 10 := by
      rw [VectorUtils.getSize]
      rw [show ((0:ℝ)^2 + 10^2 + 0^2) = 10^2 by norm_num]
      exact Real.sqrt_sq (by norm_num)
    have hnorm : VectorUtils.normalize (⟨0,10,0⟩ : Vertex3 ℝ) = ⟨0,1,0⟩ := by
      rw [VectorUtils.normalize, if_neg (by rw [hgs]; norm_num), hgs]
      norm_num
    have e0 : (⟨⟨0,0,0⟩, ⟨0,10,0⟩⟩ : Line).p1.subtract
        (⟨⟨0,0,0⟩, ⟨0,10,0⟩⟩ : Line).p0 = ⟨0,10,0⟩ := by
      norm_num [Vertex3.subtract]
    have e1 : (⟨⟨1,0,0⟩, ⟨1,10,0⟩⟩ : Line).p1.subtract
        (⟨⟨1,0,0⟩, ⟨1,10,0⟩⟩ : Line).p0 = ⟨0,10,0⟩ := by
      norm_num [Vertex3.subtract]
    have hpar : VectorUtils.isParallelLines ⟨⟨0,0,0⟩, ⟨0,10,0⟩⟩
        ⟨⟨1,0,0⟩, ⟨1,10,0⟩⟩ := by
      unfold VectorUtils.isParallelLines
      rw [e0, e1]
      unfold VectorUtils.isParallel
      rw [hnorm]
      norm_num [Vertex3.dot]
    rw [LineEvaluation.getIntersection, if_pos hpar]
  case refine_1 =>
    have hSS : Real.sqrt 200 ^ 2 = 200 := Real.sq_sqrt (by norm_num)
    have hSpos : (0:ℝ) < Real.sqrt 200 := Real.sqrt_pos.mpr (by norm_num)
    have hSne : Real.sqrt 200 ≠ 0 := ne_of_gt hSpos
    have e0 : (⟨⟨0,0,0⟩, ⟨10,10,0⟩⟩ : Line).p1.subtract
        (⟨⟨0,0,0⟩, ⟨10,10,0⟩⟩ : Line).p0 = ⟨10,10,0⟩ := by
      norm_num [Vertex3.subtract]
    have e1 : (⟨⟨10,0,0⟩, ⟨0,10,0⟩⟩ : Line).p1.subtract
        (⟨⟨10,0,0⟩, ⟨0,10,0⟩⟩ : Line).p0 = ⟨-10,10,0⟩ := by
      norm_num [Vertex3.subtract]
    have hgs0 : VectorUtils.getSize (⟨10,10,0⟩ : Vertex3 ℝ) = Real.sqrt 200 := by
      rw [VectorUtils.getSize]
      norm_num
    have hgs1 : VectorUtils.getSize (⟨-10,10,0⟩ : Vertex3 ℝ) = Real.sqrt 200 := by
      rw [VectorUtils.getSize]
      norm_num
    have hn0 : VectorUtils.normalize (⟨10,10,0⟩ : Vertex3 ℝ)
        = ⟨10/Real.sqrt 200, 10/Real.sqrt 200, 0⟩ := by
      rw [VectorUtils.normalize, if_neg (by rw [hgs0]; exact hSne), hgs0]
      norm_num
    have hn1 : VectorUtils.normalize (⟨-10,10,0⟩ : Vertex3 ℝ)
        = ⟨-(10/Real.sqrt 200), 10/Real.sqrt 200, 0⟩ := by
      rw [VectorUtils.normalize, if_neg (by rw [hgs1]; exact hSne), hgs1]
      norm_num [neg_div]
    have hnpar : ¬ VectorUtils.isParallelLines ⟨⟨0,0,0⟩, ⟨10,10,0⟩⟩
        ⟨⟨10,0,0⟩, ⟨0,10,0⟩⟩ := by
      unfold VectorUtils.isParallelLines
      rw [e0, e1]
      unfold VectorUtils.isParallel
      rw [hn0, hn1]
      have hd : (⟨10/Real.sqrt 200, 10/Real.sqrt 200, 0⟩ : Vertex3 ℝ).dot
          ⟨-(10/Real.sqrt 200), 10/Real.sqrt 200, 0⟩ = 0 := by
        simp only [Vertex3.dot]
        ring
      rw [hd]
      norm_num
    have hnp0 : VectorUtils.normalize
        (⟨10/Real.sqrt 200, 10/Real.sqrt 200, 0⟩ : Vertex3 ℝ)
        = ⟨10/Real.sqrt 200, 10/Real.sqrt 200, 0⟩ := by
      have hsz : VectorUtils.getSize
          (⟨10/Real.sqrt 200, 10/Real.sqrt 200, 0⟩ : Vertex3 ℝ) = 1 := by
        rw [VectorUtils.getSize]
        rw [show ((10/Real.sqrt 200:ℝ)^2 + (10/Real.sqrt 200)^2 + 0^2)
          = 200/Real.sqrt 200^2 by ring]
        rw [hSS]
        norm_num
      rw [VectorUtils.normalize, if_neg (by rw [hsz]; norm_num), hsz]
      norm_num
    have hnp1 : VectorUtils.normalize
        (⟨-(10/Real.sqrt 200), 10/Real.sqrt 200, 0⟩ : Vertex3 ℝ)
        = ⟨-(10/Real.sqrt 200), 10/Real.sqrt 200, 0⟩ := by
      have hsz : VectorUtils.getSize
          (⟨-(10/Real.sqrt 200), 10/Real.sqrt 200, 0⟩ : Vertex3 ℝ) = 1 := by
        rw [VectorUtils.getSize]
        rw [show ((-(10/Real.sqrt 200):ℝ)^2 + (10/Real.sqrt 200)^2 + 0^2)
          = 200/Real.sqrt 200^2 by ring]
        rw [hSS]
        norm_num
      rw [VectorUtils.normalize, if_neg (by rw [hsz]; norm_num), hsz]
      norm_num
    have hS3 : Real.sqrt 200 ^ 3 = 200 * Real.sqrt 200 := by
      linear_combination Real.sqrt 200 * hSS
    have hS4 : Real.sqrt 200 ^ 4 = 40000 := by
      linear_combination (Real.sqrt 200 ^ 2 + 200) * hSS
    have hdet : -(10/Real.sqrt 200 * (10/Real.sqrt 200))
        + -(10/Real.sqrt 200) * (10/Real.sqrt 200) = -1 := by
      field_simp
      ring_nf
      try linarith [hSS, hS3, hS4]
    rw [LineEvaluation.getIntersection, if_neg hnpar]
    simp only [e0, e1, hn0, hn1, hnp0, hnp1]
    simp only [hdet]
    norm_num [Vertex3.add, Vertex3.multiply, Vertex3.subtract, Vertex3.dot,
      VectorUtils.getDist, LineEvaluation.getParameterOnLine]
    have hbase1 : (-(10 / Real.sqrt 200 * (10 / Real.sqrt 200 * 10 / -1)) -
        (10 + 10 / Real.sqrt 200 * (10 / Real.sqrt 200 * 10 / -1))) = 0 := by
      field_simp
      ring_nf
      try linarith [hSS, hS3, hS4]
    have hE : ((10 + 10 / Real.sqrt 200 * (10 / Real.sqrt 200 * 10 / -1)) *
          (10 / Real.sqrt 200) +
        (10 + 10 / Real.sqrt 200 * (10 / Real.sqrt 200 * 10 / -1)) *
          (10 / Real.sqrt 200)) * (10 / Real.sqrt 200) = 5 := by
      field_simp
      ring_nf
      try linarith [hSS, hS3, hS4]
    have hF : (-((-(10 / Real.sqrt 200 * (10 / Real.sqrt 200 * 10 / -1)) - 10) *
          (10 / Real.sqrt 200)) +
        (10 + 10 / Real.sqrt 200 * (10 / Real.sqrt 200 * 10 / -1)) *
          (10 / Real.sqrt 200)) * (10 / Real.sqrt 200) = 5 := by
      field_simp
      ring_nf
      try linarith [hSS, hS3, hS4]
    rw [hbase1, hE, hF]
    norm_num [Real.sqrt_zero]

end JakkeGraphics

namespace JakkeGraphics

/-- Source type `Vertex2d` (`{x, y}`). -/
structure Vertex2 where
  x : ℝ
  y : ℝ

/-- Side lengths of a `BoundingBox2d` (`length: {u, v}`). -/
structure BoxLength2 where
  u : ℝ
  v : ℝ

/-- Source type `BoundingBox2d`: anchor, primary axis and side lengths. -/
structure BoundingBox2d where
  anchor : Vertex2
  uAxis : Vertex2
  length : BoxLength2

/-- Side lengths of a `BoundingBox3d` (`length: {u, v, n}`). -/
structure BoxLength3 where
  u : ℝ
  v : ℝ
  n : ℝ

/-- Source type `BoundingBox3d`: anchor, two axes and side lengths. -/
structure BoundingBox3d where
  anchor : Vertex3 ℝ
  uAxis : Vertex3 ℝ
  vAxis : Vertex3 ℝ
  length : BoxLength3

/-- Source per-axis result type `CollisionResult`
(`{hasCollision, hasError, sectionByA?, sectionByB?}`); the optional sections
are the projected parameter intervals. -/
structure CollisionResult where
  hasCollision : Bool
  hasError : Bool
  sectionByA : Option (Real × Real) := none
  sectionByB : Option (Real × Real) := none

/-- Source return type `ActionResult<SATSections>` of the SAT box tests
(`{result, hasError?, message?, args?}`). -/
structure SATResult where
  result : Bool
  hasError : Option Bool := none
  message : Option String := none
  args : Option (List (Option (Real × Real) × Option (Real × Real))) := none

/-- The per-axis arrow function shared verbatim by `hasBoundingBoxCollision2d`
(`lastIdx = 3`, four corners per box) and `hasBoundingBoxCollision3d`
(`lastIdx = 7`, eight corners per box): project every corner onto the axis
direction, mark the axis result as an error when any projection is missing,
otherwise sort the projection parameters ascending and compare the two
resulting sections with the `1e-6` tolerance on the side selected by
`includeContacting`. -/
noncomputable def satAxisTest (includeContacting : Bool) (lastIdx : Nat)
    (axis : Vertex3 Real) (cornersA cornersB : List (Vertex3 Real)) :
    CollisionResult :=
  let ptsOnAxisFromA :=
    cornersA.map (LineEvaluation.getFootPointOnDirection axis)
  let ptsOnAxisFromB :=
    cornersB.map (LineEvaluation.getFootPointOnDirection axis)
  if ptsOnAxisFromA.all Option.isSome && ptsOnAxisFromB.all Option.isSome then
    let sortedParamsFromA :=
      ((ptsOnAxisFromA.filterMap id).map Prod.snd).mergeSort
        (fun a b => decide (a ≤ b))
    let sortedParamsFromB :=
      ((ptsOnAxisFromB.filterMap id).map Prod.snd).mergeSort
        (fun a b => decide (a ≤ b))
    let sectionByA :=
      (sortedParamsFromA.getD 0 0, sortedParamsFromA.getD lastIdx 0)
    let sectionByB :=
      (sortedParamsFromB.getD 0 0, sortedParamsFromB.getD lastIdx 0)
    let isSeparated : Bool :=
      if includeContacting then
        decide (sectionByA.2 < sectionByB.1 - 1 / 1000000) ||
        decide (sectionByB.2 < sectionByA.1 - 1 / 1000000)
      else
        decide (sectionByA.2 < sectionByB.1 + 1 / 1000000) ||
        decide (sectionByB.2 < sectionByA.1 + 1 / 1000000)
    ⟨!isSeparated, false, some sectionByA, some sectionByB⟩
  else
    ⟨false, true, none, none⟩

/-- Source `hasBoundingBoxCollision2d`, decomposed: the list of the four
per-axis SAT results produced by `axes.map(...)` in the main branch (axes:
the normalized `u` axis of each box and its 90-degree rotation; corners:
anchor, anchor + u, anchor + u + v, anchor + v of each box, all on `z = 0`). -/
noncomputable def collision2dAxisResults (boxA boxB : BoundingBox2d)
    (includeContacting : Bool) : List CollisionResult :=
  let uAxisOfA := VectorUtils.normalize ⟨boxA.uAxis.x, boxA.uAxis.y, 0⟩
  let vAxisOfA :=
    VectorUtils.rotateOnXY ⟨uAxisOfA.x, uAxisOfA.y, 0⟩ (Real.pi * 0.5)
  let uAxisOfB := VectorUtils.normalize ⟨boxB.uAxis.x, boxB.uAxis.y, 0⟩
  let vAxisOfB :=
    VectorUtils.rotateOnXY ⟨uAxisOfB.x, uAxisOfB.y, 0⟩ (Real.pi * 0.5)
  let axes := [uAxisOfA, vAxisOfA, uAxisOfB, vAxisOfB]
  let p0OfA : Vertex3 Real := ⟨boxA.anchor.x, boxA.anchor.y, 0⟩
  let p1OfA := (⟨boxA.anchor.x, boxA.anchor.y, 0⟩ : Vertex3 Real).add
    ((⟨uAxisOfA.x, uAxisOfA.y, 0⟩ : Vertex3 Real).multiply boxA.length.u)
  let p3OfA := (⟨boxA.anchor.x, boxA.anchor.y, 0⟩ : Vertex3 Real).add
    ((⟨vAxisOfA.x, vAxisOfA.y, 0⟩ : Vertex3 Real).multiply boxA.length.v)
  let p2OfA := p1OfA.add
    ((⟨vAxisOfA.x, vAxisOfA.y, 0⟩ : Vertex3 Real).multiply boxA.length.v)
  let p0OfB : Vertex3 Real := ⟨boxB.anchor.x, boxB.anchor.y, 0⟩
  let p1OfB := (⟨boxB.anchor.x, boxB.anchor.y, 0⟩ : Vertex3 Real).add
    ((⟨uAxisOfB.x, uAxisOfB.y, 0⟩ : Vertex3 Real).multiply boxB.length.u)
  let p3OfB := (⟨boxB.anchor.x, boxB.anchor.y, 0⟩ : Vertex3 Real).add
    ((⟨vAxisOfB.x, vAxisOfB.y, 0⟩ : Vertex3 Real).multiply boxB.length.v)
  let p2OfB := p1OfB.add
    ((⟨vAxisOfB.x, vAxisOfB.y, 0⟩ : Vertex3 Real).multiply boxB.length.v)
  axes.map (fun axis =>
    satAxisTest includeContacting 3 axis [p0OfA, p1OfA, p2OfA, p3OfA]
      [p0OfB, p1OfB, p2OfB, p3OfB])

/-- Source `hasBoundingBoxCollision2d`: reject zero `u` axes with an error,
then run the SAT over the four axes; the success branch carries NO top-level
`hasError` field — `result` is `true` iff every axis result is error-free
and colliding. -/
noncomputable def hasBoundingBoxCollision2d (boxA boxB : BoundingBox2d)
    (includeContacting : Bool) : SATResult :=
  if VectorUtils.getSize ⟨boxA.uAxis.x, boxA.uAxis.y, 0⟩ ≤ 1 / 1000000 ∨
      VectorUtils.getSize ⟨boxB.uAxis.x, boxB.uAxis.y, 0⟩ ≤ 1 / 1000000 then
    ⟨false, some true,
      some "The vector of each boundingbox should not be zero.", none⟩
  else
    let collisionResult := collision2dAxisResults boxA boxB includeContacting
    ⟨collisionResult.all (fun r => !r.hasError && r.hasCollision), none, none,
      some (collisionResult.map (fun r => (r.sectionByA, r.sectionByB)))⟩

/-- Source `hasBoundingBoxCollision3d`, decomposed: the list of the six
per-axis SAT results produced by `axes.map(...)` in the main branch (axes:
normalized `u`, `v` of each box plus the normalized cross product `n`;
corners: the eight parallelepiped vertices of each box). -/
noncomputable def collision3dAxisResults (boxA boxB : BoundingBox3d)
    (includeContacting : Bool) : List CollisionResult :=
  let uAxisA := VectorUtils.normalize boxA.uAxis
  let vAxisA := VectorUtils.normalize boxA.vAxis
  let uAxisB := VectorUtils.normalize boxB.uAxis
  let vAxisB := VectorUtils.normalize boxB.vAxis
  let nAxisA := VectorUtils.normalize (uAxisA.cross vAxisA)
  let nAxisB := VectorUtils.normalize (uAxisB.cross vAxisB)
  let p0A := boxA.anchor
  let p1A := p0A.add (uAxisA.multiply boxA.length.u)
  let p2A := p1A.add (vAxisA.multiply boxA.length.v)
  let p3A := p0A.add (vAxisA.multiply boxA.length.v)
  let p4A := p0A.add (nAxisA.multiply boxA.length.n)
  let p5A := p1A.add (nAxisA.multiply boxA.length.n)
  let p6A := p2A.add (nAxisA.multiply boxA.length.n)
  let p7A := p3A.add (nAxisA.multiply boxA.length.n)
  let p0B := boxB.anchor
  let p1B := p0B.add (uAxisB.multiply boxB.length.u)
  let p2B := p1B.add (vAxisB.multiply boxB.length.v)
  let p3B := p0B.add (vAxisB.multiply boxB.length.v)
  let p4B := p0B.add (nAxisB.multiply boxB.length.n)
  let p5B := p1B.add (nAxisB.multiply boxB.length.n)
  let p6B := p2B.add (nAxisB.multiply boxB.length.n)
  let p7B := p3B.add (nAxisB.multiply boxB.length.n)
  [uAxisA, vAxisA, nAxisA, uAxisB, vAxisB, nAxisB].map (fun axis =>
    satAxisTest includeContacting 7 axis
      [p0A, p1A, p2A, p3A, p4A, p5A, p6A, p7A]
      [p0B, p1B, p2B, p3B, p4B, p5B, p6B, p7B])

/-- Source `hasBoundingBoxCollision3d`: reject zero axes, reject
non-perpendicular `u`/`v` pairs, then run the SAT over six axes; the success
branch reports `hasError` = "some axis result errs" and
`result` = "no axis result is separated". -/
noncomputable def hasBoundingBoxCollision3d (boxA boxB : BoundingBox3d)
    (includeContacting : Bool) : SATResult :=
  if VectorUtils.getSize boxA.uAxis ≤ 1 / 1000000 ∨
      VectorUtils.getSize boxA.vAxis ≤ 1 / 1000000 ∨
      VectorUtils.getSize boxB.uAxis ≤ 1 / 1000000 ∨
      VectorUtils.getSize boxB.vAxis ≤ 1 / 1000000 then
    ⟨false, some true, some "Some axes are zero vector.", none⟩
  else
    if ¬ |(VectorUtils.normalize boxA.uAxis).dot
          (VectorUtils.normalize boxA.vAxis)| < 1 / 1000000 ∨
        ¬ |(VectorUtils.normalize boxB.uAxis).dot
          (VectorUtils.normalize boxB.vAxis)| < 1 / 1000000 then
      ⟨false, some true,
        some "U, V axis of each box should be perpendicular to each other.",
        none⟩
    else
      let collisionResult := collision3dAxisResults boxA boxB includeContacting
      ⟨!(collisionResult.any (fun r => !r.hasCollision)),
        some (collisionResult.any (fun r => r.hasError)), none,
        some (collisionResult.map (fun r => (r.sectionByA, r.sectionByB)))⟩

end JakkeGraphics

namespace JakkeGraphics

theorem getSize_unit_x : VectorUtils.getSize ⟨1, 0, 0⟩ = 1 := by
  rw [VectorUtils.getSize]
  norm_num

theorem getSize_unit_y : VectorUtils.getSize ⟨0, 1, 0⟩ = 1 := by
  rw [VectorUtils.getSize]
  norm_num

theorem normalize_unit_x :
    VectorUtils.normalize ⟨1, 0, 0⟩ = (⟨1, 0, 0⟩ : Vertex3 Real) := by
  rw [VectorUtils.normalize, getSize_unit_x]
  norm_num [Vertex3.mk.injEq]

theorem normalize_unit_y :
    VectorUtils.normalize ⟨0, 1, 0⟩ = (⟨0, 1, 0⟩ : Vertex3 Real) := by
  rw [VectorUtils.normalize, getSize_unit_y]
  norm_num [Vertex3.mk.injEq]

theorem rotate_unit_x_half_pi :
    VectorUtils.rotateOnXY ⟨1, 0, 0⟩ (Real.pi * 0.5) = (⟨0, 1, 0⟩ : Vertex3 Real) := by
  rw [VectorUtils.rotateOnXY, show Real.pi * 0.5 = Real.pi / 2 by ring]
  norm_num [Real.cos_pi_div_two, Real.sin_pi_div_two, Vertex3.mk.injEq]

/-- Rotation on the XY plane preserves the vector length. -/
theorem rotate_size (v : Vertex3 Real) (rad : Real) :
    VectorUtils.getSize (VectorUtils.rotateOnXY v rad) = VectorUtils.getSize v := by
  rw [VectorUtils.rotateOnXY, VectorUtils.getSize, VectorUtils.getSize]
  congr 1
  linear_combination (v.x ^ 2 + v.y ^ 2) * Real.sin_sq_add_cos_sq rad

theorem normalize_z_zero (a b : Real) :
    (VectorUtils.normalize ⟨a, b, 0⟩).z = 0 := by
  rw [VectorUtils.normalize]
  split <;> norm_num

theorem getSize_xy_of_z_zero (v : Vertex3 Real) (h : v.z = 0) :
    VectorUtils.getSize ⟨v.x, v.y, 0⟩ = VectorUtils.getSize v := by
  rw [VectorUtils.getSize, VectorUtils.getSize, h]

/-- Projection onto the `x` unit direction: the foot parameter is the
point's `x` coordinate. -/
theorem footPoint_unit_x (p : Vertex3 Real) :
    LineEvaluation.getFootPointOnDirection ⟨1, 0, 0⟩ p
      = some (⟨p.x, 0, 0⟩, p.x) := by
  rw [LineEvaluation.getFootPointOnDirection,
    if_neg (by rw [getSize_unit_x]; norm_num)]
  simp only [normalize_unit_x, getSize_unit_x]
  norm_num [Vertex3.dot, Vertex3.multiply, Vertex3.mk.injEq]

/-- Projection onto the `y` unit direction: the foot parameter is the
point's `y` coordinate. -/
theorem footPoint_unit_y (p : Vertex3 Real) :
    LineEvaluation.getFootPointOnDirection ⟨0, 1, 0⟩ p
      = some (⟨0, p.y, 0⟩, p.y) := by
  rw [LineEvaluation.getFootPointOnDirection,
    if_neg (by rw [getSize_unit_y]; norm_num)]
  simp only [normalize_unit_y, getSize_unit_y]
  norm_num [Vertex3.dot, Vertex3.multiply, Vertex3.mk.injEq]

/-- The first element of a sorted list is a lower bound. -/
theorem sorted_getD_zero_le (s : List Real) (hs : s.Sorted (· ≤ ·)) :
    ∀ x ∈ s, s.getD 0 0 ≤ x := by
  cases s with
  | nil => intro x hx; exact absurd hx (List.not_mem_nil x)
  | cons a t =>
    intro x hx
    rw [List.getD_cons_zero]
    rcases List.mem_cons.mp hx with rfl | hx2
    · exact le_refl x
    · exact (List.sorted_cons.mp hs).1 x hx2

/-- The last element (at index `length - 1`) of a nonempty list is a member. -/
theorem getD_last_mem (s : List Real) (h : s ≠ []) :
    s.getD (s.length - 1) 0 ∈ s := by
  induction s with
  | nil => exact absurd rfl h
  | cons a t ih =>
    cases t with
    | nil => simp
    | cons b t2 =>
      have h1 : (a :: b :: t2).getD ((a :: b :: t2).length - 1) 0
          = (b :: t2).getD ((b :: t2).length - 1) 0 := by
        simp [List.getD_cons_succ]
      rw [h1]
      exact List.mem_cons_of_mem a (ih (by simp))

/-- The last element of a sorted list is an upper bound. -/
theorem sorted_le_getD_last (s : List Real) (hs : s.Sorted (· ≤ ·)) :
    ∀ x ∈ s, x ≤ s.getD (s.length - 1) 0 := by
  induction s with
  | nil => intro x hx; exact absurd hx (List.not_mem_nil x)
  | cons a t ih =>
    intro x hx
    cases t with
    | nil =>
      rcases List.mem_cons.mp hx with rfl | hx2
      · simp
      · exact absurd hx2 (List.not_mem_nil x)
    | cons b t2 =>
      have h1 : (a :: b :: t2).getD ((a :: b :: t2).length - 1) 0
          = (b :: t2).getD ((b :: t2).length - 1) 0 := by
        simp [List.getD_cons_succ]
      rw [h1]
      rcases List.mem_cons.mp hx with rfl | hx2
      · exact le_trans
          ((List.sorted_cons.mp hs).1 _ (getD_last_mem (b :: t2) (by simp)))
          (le_refl _)
      · exact ih (List.sorted_cons.mp hs).2 x hx2

theorem getD_zero_mem (s : List Real) (h : s ≠ []) : s.getD 0 0 ∈ s := by
  cases s with
  | nil => exact absurd rfl h
  | cons a t => rw [List.getD_cons_zero]; exact List.mem_cons_self a t

/-- The ascending `mergeSort` of a nonempty real list starts with a member
that is a lower bound and ends (index `length - 1`) with a member that is an
upper bound. -/
theorem mergeSort_getD_min_max (l : List Real) (hne : l ≠ []) :
    ((l.mergeSort (fun a b => decide (a ≤ b))).getD 0 0 ∈ l ∧
      ∀ x ∈ l, (l.mergeSort (fun a b => decide (a ≤ b))).getD 0 0 ≤ x) ∧
    ((l.mergeSort (fun a b => decide (a ≤ b))).getD (l.length - 1) 0 ∈ l ∧
      ∀ x ∈ l, x ≤ (l.mergeSort (fun a b => decide (a ≤ b))).getD
        (l.length - 1) 0) := by
  have hperm : (l.mergeSort (fun a b => decide (a ≤ b))).Perm l :=
    List.mergeSort_perm l _
  have hlen : (l.mergeSort (fun a b => decide (a ≤ b))).length = l.length :=
    hperm.length_eq
  have hne2 : l.mergeSort (fun a b => decide (a ≤ b)) ≠ [] := by
    intro h0
    rw [h0] at hlen
    exact hne (List.length_eq_zero.mp hlen.symm)
  have hsorted : (l.mergeSort (fun a b => decide (a ≤ b))).Sorted (· ≤ ·) := by
    have hp := @List.sorted_mergeSort Real (fun a b => decide (a ≤ b))
      (fun a b c hab hbc =>
        decide_eq_true (le_trans (of_decide_eq_true hab) (of_decide_eq_true hbc)))
      (fun a b => by
        show (decide (a ≤ b) || decide (b ≤ a)) = true
        rcases le_total a b with h | h
        · rw [decide_eq_true h, Bool.true_or]
        · rw [decide_eq_true h, Bool.or_true])
      l
    exact hp.imp (fun hd => of_decide_eq_true hd)
  rw [← hlen]
  refine ⟨⟨hperm.mem_iff.mp (getD_zero_mem _ hne2), ?_⟩,
    ⟨hperm.mem_iff.mp (getD_last_mem _ hne2), ?_⟩⟩
  · intro x hx
    exact sorted_getD_zero_le _ hsorted x (hperm.mem_iff.mpr hx)
  · intro x hx
    exact sorted_le_getD_last _ hsorted x (hperm.mem_iff.mpr hx)

end JakkeGraphics

namespace JakkeGraphics

theorem eq_min4_of (a b c d x : Real)
    (hmem : x = a ∨ x = b ∨ x = c ∨ x = d)
    (hle : x ≤ a ∧ x ≤ b ∧ x ≤ c ∧ x ≤ d) :
    x = min (min (min a b) c) d := by
  refine le_antisymm
    (le_min (le_min (le_min hle.1 hle.2.1) hle.2.2.1) hle.2.2.2) ?_
  rcases hmem with rfl | rfl | rfl | rfl
  · exact le_trans (min_le_left _ _)
      (le_trans (min_le_left _ _) (min_le_left _ _))
  · exact le_trans (min_le_left _ _)
      (le_trans (min_le_left _ _) (min_le_right _ _))
  · exact le_trans (min_le_left _ _) (min_le_right _ _)
  · exact min_le_right _ _

theorem eq_max4_of (a b c d x : Real)
    (hmem : x = a ∨ x = b ∨ x = c ∨ x = d)
    (hle : a ≤ x ∧ b ≤ x ∧ c ≤ x ∧ d ≤ x) :
    x = max (max (max a b) c) d := by
  refine le_antisymm ?_
    (max_le (max_le (max_le hle.1 hle.2.1) hle.2.2.1) hle.2.2.2)
  rcases hmem with rfl | rfl | rfl | rfl
  · exact le_trans (le_max_left _ _)
      (le_trans (le_max_left _ _) (le_max_left _ _))
  · exact le_trans (le_max_right _ _)
      (le_trans (le_max_left _ _) (le_max_left _ _))
  · exact le_trans (le_max_right _ _) (le_max_left _ _)
  · exact le_max_right _ _

theorem mergeSort_four_min (q0 q1 q2 q3 : Real) :
    (([q0, q1, q2, q3] : List Real).mergeSort
        (fun a b => decide (a ≤ b))).getD 0 0
      = min (min (min q0 q1) q2) q3 := by
  obtain ⟨⟨hmem, hle⟩, -⟩ := mergeSort_getD_min_max [q0, q1, q2, q3] (by simp)
  refine eq_min4_of q0 q1 q2 q3 _ (by simpa using hmem)
    ⟨hle q0 (by simp), hle q1 (by simp), hle q2 (by simp), hle q3 (by simp)⟩

theorem mergeSort_four_max (q0 q1 q2 q3 : Real) :
    (([q0, q1, q2, q3] : List Real).mergeSort
        (fun a b => decide (a ≤ b))).getD 3 0
      = max (max (max q0 q1) q2) q3 := by
  obtain ⟨-, ⟨hmem, hle⟩⟩ := mergeSort_getD_min_max [q0, q1, q2, q3] (by simp)
  have h3 : ([q0, q1, q2, q3] : List Real).length - 1 = 3 := rfl
  rw [h3] at hmem hle
  refine eq_max4_of q0 q1 q2 q3 _ (by simpa using hmem)
    ⟨hle q0 (by simp), hle q1 (by simp), hle q2 (by simp), hle q3 (by simp)⟩

/-- Full evaluation of the per-axis SAT test on four corners per box, given
the foot projections of all eight corners: no error, and the sections and
the separation verdict are determined by the min/max of the parameters. -/
theorem satAxisTest_four (inc : Bool) (axis : Vertex3 Real)
    (a0 a1 a2 a3 b0 b1 b2 b3 w0 w1 w2 w3 z0 z1 z2 z3 : Vertex3 Real)
    (q0 q1 q2 q3 r0 r1 r2 r3 : Real)
    (ha0 : LineEvaluation.getFootPointOnDirection axis a0 = some (w0, q0))
    (ha1 : LineEvaluation.getFootPointOnDirection axis a1 = some (w1, q1))
    (ha2 : LineEvaluation.getFootPointOnDirection axis a2 = some (w2, q2))
    (ha3 : LineEvaluation.getFootPointOnDirection axis a3 = some (w3, q3))
    (hb0 : LineEvaluation.getFootPointOnDirection axis b0 = some (z0, r0))
    (hb1 : LineEvaluation.getFootPointOnDirection axis b1 = some (z1, r1))
    (hb2 : LineEvaluation.getFootPointOnDirection axis b2 = some (z2, r2))
    (hb3 : LineEvaluation.getFootPointOnDirection axis b3 = some (z3, r3)) :
    satAxisTest inc 3 axis [a0, a1, a2, a3] [b0, b1, b2, b3] =
      ⟨!(if inc then
          decide (max (max (max q0 q1) q2) q3
              < min (min (min r0 r1) r2) r3 - 1 / 1000000) ||
          decide (max (max (max r0 r1) r2) r3
              < min (min (min q0 q1) q2) q3 - 1 / 1000000)
        else
          decide (max (max (max q0 q1) q2) q3
              < min (min (min r0 r1) r2) r3 + 1 / 1000000) ||
          decide (max (max (max r0 r1) r2) r3
              < min (min (min q0 q1) q2) q3 + 1 / 1000000)),
       false,
       some (min (min (min q0 q1) q2) q3, max (max (max q0 q1) q2) q3),
       some (min (min (min r0 r1) r2) r3, max (max (max r0 r1) r2) r3)⟩ := by
  simp only [satAxisTest, List.map_cons, List.map_nil, ha0, ha1, ha2, ha3,
    hb0, hb1, hb2, hb3, List.all_cons, List.all_nil, Option.isSome_some,
    Bool.and_self, Bool.and_true, if_true, List.filterMap_cons,
    List.filterMap_nil, id_eq, mergeSort_four_min, mergeSort_four_max]

end JakkeGraphics

namespace JakkeGraphics

/-- An axis of length at least `1e-6` never produces a missing projection,
so the per-axis SAT test cannot err on it. -/
theorem satAxisTest_no_error (inc : Bool) (lastIdx : Nat)
    (axis : Vertex3 Real) (cA cB : List (Vertex3 Real))
    (h : 1 / 1000000 ≤ VectorUtils.getSize axis) :
    (satAxisTest inc lastIdx axis cA cB).hasError = false := by
  have hsome : ∀ p : Vertex3 Real,
      (LineEvaluation.getFootPointOnDirection axis p).isSome = true := by
    intro p
    rw [LineEvaluation.getFootPointOnDirection, if_neg (not_lt.mpr h)]
    rfl
  have hA : (cA.map (LineEvaluation.getFootPointOnDirection axis)).all
      Option.isSome = true := by
    rw [List.all_eq_true]
    rintro o ho
    rcases List.mem_map.mp ho with ⟨p, -, rfl⟩
    exact hsome p
  have hB : (cB.map (LineEvaluation.getFootPointOnDirection axis)).all
      Option.isSome = true := by
    rw [List.all_eq_true]
    rintro o ho
    rcases List.mem_map.mp ho with ⟨p, -, rfl⟩
    exact hsome p
  simp only [satAxisTest, hA, hB, Bool.and_self, if_true]

/-- C5: (a) in the per-axis SAT test shared by the 2D and 3D box collision
functions, a missing corner projection on either box marks that axis result
as `hasError` with `hasCollision: false` and no sections; (b) after the 3D
validation guards pass, the overall `hasError` of `hasBoundingBoxCollision3d`
is exactly "some per-axis result errs"; (c) after the 2D validation guard
passes, every per-axis result of `hasBoundingBoxCollision2d` is error-free
(all four axes are unit vectors), so an erring axis can never reach the 2D
verdict, which would not propagate `hasError`. -/
theorem C5_missing_projection_error_propagation :
    (∀ (inc : Bool) (lastIdx : Nat) (axis : Vertex3 Real)
        (cornersA cornersB : List (Vertex3 Real)),
      ((∃ p ∈ cornersA,
          LineEvaluation.getFootPointOnDirection axis p = none) ∨
        (∃ p ∈ cornersB,
          LineEvaluation.getFootPointOnDirection axis p = none)) →
      satAxisTest inc lastIdx axis cornersA cornersB
        = ⟨false, true, none, none⟩) ∧
    (∀ (boxA boxB : BoundingBox3d) (inc : Bool),
      1 / 1000000 < VectorUtils.getSize boxA.uAxis →
      1 / 1000000 < VectorUtils.getSize boxA.vAxis →
      1 / 1000000 < VectorUtils.getSize boxB.uAxis →
      1 / 1000000 < VectorUtils.getSize boxB.vAxis →
      |(VectorUtils.normalize boxA.uAxis).dot
        (VectorUtils.normalize boxA.vAxis)| < 1 / 1000000 →
      |(VectorUtils.normalize boxB.uAxis).dot
        (VectorUtils.normalize boxB.vAxis)| < 1 / 1000000 →
      (hasBoundingBoxCollision3d boxA boxB inc).hasError
        = some ((collision3dAxisResults boxA boxB inc).any
            (fun r => r.hasError))) ∧
    (∀ (boxA boxB : BoundingBox2d) (inc : Bool),
      1 / 1000000 < VectorUtils.getSize ⟨boxA.uAxis.x, boxA.uAxis.y, 0⟩ →
      1 / 1000000 < VectorUtils.getSize ⟨boxB.uAxis.x, boxB.uAxis.y, 0⟩ →
      (collision2dAxisResults boxA boxB inc).all
        (fun r => !r.hasError) = true) := by
  refine ⟨?_, ?_, ?_⟩
  · intro inc lastIdx axis cornersA cornersB h
    have hfalse : (cornersA.map
          (LineEvaluation.getFootPointOnDirection axis)).all Option.isSome
        = false ∨
        (cornersB.map
          (LineEvaluation.getFootPointOnDirection axis)).all Option.isSome
        = false := by
      rcases h with ⟨p, hp, hnone⟩ | ⟨p, hp, hnone⟩
      · left
        rw [List.all_eq_false]
        exact ⟨_, List.mem_map_of_mem _ hp, by rw [hnone]; simp⟩
      · right
        rw [List.all_eq_false]
        exact ⟨_, List.mem_map_of_mem _ hp, by rw [hnone]; simp⟩
    rcases hfalse with hf | hf
    · simp only [satAxisTest, hf, Bool.false_and, Bool.false_eq_true,
        if_false]
    · simp only [satAxisTest, hf, Bool.and_false, Bool.false_eq_true,
        if_false]
  · intro boxA boxB inc h1 h2 h3 h4 hp1 hp2
    rw [hasBoundingBoxCollision3d,
      if_neg (by push_neg; exact ⟨h1, h2, h3, h4⟩),
      if_neg (by push_neg; exact ⟨hp1, hp2⟩)]
  · intro boxA boxB inc hA hB
    have hAne : VectorUtils.getSize ⟨boxA.uAxis.x, boxA.uAxis.y, 0⟩ ≠ 0 :=
      ne_of_gt (lt_trans (by norm_num) hA)
    have hBne : VectorUtils.getSize ⟨boxB.uAxis.x, boxB.uAxis.y, 0⟩ ≠ 0 :=
      ne_of_gt (lt_trans (by norm_num) hB)
    have huA : VectorUtils.getSize
        (VectorUtils.normalize ⟨boxA.uAxis.x, boxA.uAxis.y, 0⟩) = 1 :=
      normalize_size_one _ hAne
    have huB : VectorUtils.getSize
        (VectorUtils.normalize ⟨boxB.uAxis.x, boxB.uAxis.y, 0⟩) = 1 :=
      normalize_size_one _ hBne
    have hvA : VectorUtils.getSize (VectorUtils.rotateOnXY
        ⟨(VectorUtils.normalize ⟨boxA.uAxis.x, boxA.uAxis.y, 0⟩).x,
         (VectorUtils.normalize ⟨boxA.uAxis.x, boxA.uAxis.y, 0⟩).y, 0⟩
        (Real.pi * 0.5)) = 1 := by
      rw [rotate_size,
        getSize_xy_of_z_zero _ (normalize_z_zero boxA.uAxis.x boxA.uAxis.y),
        huA]
    have hvB : VectorUtils.getSize (VectorUtils.rotateOnXY
        ⟨(VectorUtils.normalize ⟨boxB.uAxis.x, boxB.uAxis.y, 0⟩).x,
         (VectorUtils.normalize ⟨boxB.uAxis.x, boxB.uAxis.y, 0⟩).y, 0⟩
        (Real.pi * 0.5)) = 1 := by
      rw [rotate_size,
        getSize_xy_of_z_zero _ (normalize_z_zero boxB.uAxis.x boxB.uAxis.y),
        huB]
    rw [List.all_eq_true]
    intro r hr
    rw [collision2dAxisResults] at hr
    simp only [List.map_cons, List.map_nil, List.mem_cons,
      List.not_mem_nil, or_false] at hr
    rcases hr with rfl | rfl | rfl | rfl
    · rw [Bool.not_eq_true', satAxisTest_no_error]
      rw [huA]
      norm_num
    · rw [Bool.not_eq_true', satAxisTest_no_error]
      rw [hvA]
      norm_num
    · rw [Bool.not_eq_true', satAxisTest_no_error]
      rw [huB]
      norm_num
    · rw [Bool.not_eq_true', satAxisTest_no_error]
      rw [hvB]
      norm_num

end JakkeGraphics

namespace JakkeGraphics

theorem C5_witness :
    satAxisTest false 3 ⟨0, 0, 0⟩ [⟨1, 2, 3⟩] [] = ⟨false, true, none, none⟩ ∧
    (hasBoundingBoxCollision3d ⟨⟨0, 0, 0⟩, ⟨1, 0, 0⟩, ⟨0, 1, 0⟩, ⟨1, 1, 1⟩⟩
        ⟨⟨5, 5, 5⟩, ⟨1, 0, 0⟩, ⟨0, 1, 0⟩, ⟨1, 1, 1⟩⟩ false).hasError
      = some ((collision3dAxisResults
          ⟨⟨0, 0, 0⟩, ⟨1, 0, 0⟩, ⟨0, 1, 0⟩, ⟨1, 1, 1⟩⟩
          ⟨⟨5, 5, 5⟩, ⟨1, 0, 0⟩, ⟨0, 1, 0⟩, ⟨1, 1, 1⟩⟩ false).any
            (fun r => r.hasError)) ∧
    (collision2dAxisResults ⟨⟨0, 0⟩, ⟨1, 0⟩, ⟨10, 3⟩⟩
        ⟨⟨20, 0⟩, ⟨1, 0⟩, ⟨10, 3⟩⟩ false).all (fun r => !r.hasError) = true :=
  ⟨C5_missing_projection_error_propagation.1 false 3 ⟨0, 0, 0⟩ [⟨1, 2, 3⟩] []
      (Or.inl ⟨⟨1, 2, 3⟩, by simp, by
        rw [LineEvaluation.getFootPointOnDirection,
          if_pos (by norm_num [VectorUtils.getSize])]⟩),
    C5_missing_projection_error_propagation.2.1 _ _ false
      (by norm_num [VectorUtils.getSize])
      (by norm_num [VectorUtils.getSize])
      (by norm_num [VectorUtils.getSize])
      (by norm_num [VectorUtils.getSize])
      (by norm_num [normalize_unit_x, normalize_unit_y, Vertex3.dot])
      (by norm_num [normalize_unit_x, normalize_unit_y, Vertex3.dot]),
    C5_missing_projection_error_propagation.2.2 _ _ false
      (by norm_num [VectorUtils.getSize])
      (by norm_num [VectorUtils.getSize])⟩

end JakkeGraphics

namespace JakkeGraphics

/-- Per-axis SAT test on the `x` unit axis: sections are the min/max of the
corner `x` coordinates. -/
theorem satAxisTest_unit_x (inc : Bool)
    (a0 a1 a2 a3 b0 b1 b2 b3 : Vertex3 Real) :
    satAxisTest inc 3 ⟨1, 0, 0⟩ [a0, a1, a2, a3] [b0, b1, b2, b3] =
      ⟨!(if inc then
          decide (max (max (max a0.x a1.x) a2.x) a3.x
              < min (min (min b0.x b1.x) b2.x) b3.x - 1 / 1000000) ||
          decide (max (max (max b0.x b1.x) b2.x) b3.x
              < min (min (min a0.x a1.x) a2.x) a3.x - 1 / 1000000)
        else
          decide (max (max (max a0.x a1.x) a2.x) a3.x
              < min (min (min b0.x b1.x) b2.x) b3.x + 1 / 1000000) ||
          decide (max (max (max b0.x b1.x) b2.x) b3.x
              < min (min (min a0.x a1.x) a2.x) a3.x + 1 / 1000000)),
       false,
       some (min (min (min a0.x a1.x) a2.x) a3.x,
         max (max (max a0.x a1.x) a2.x) a3.x),
       some (min (min (min b0.x b1.x) b2.x) b3.x,
         max (max (max b0.x b1.x) b2.x) b3.x)⟩ :=
  satAxisTest_four inc ⟨1, 0, 0⟩ a0 a1 a2 a3 b0 b1 b2 b3 _ _ _ _ _ _ _ _
    a0.x a1.x a2.x a3.x b0.x b1.x b2.x b3.x
    (footPoint_unit_x a0) (footPoint_unit_x a1) (footPoint_unit_x a2)
    (footPoint_unit_x a3) (footPoint_unit_x b0) (footPoint_unit_x b1)
    (footPoint_unit_x b2) (footPoint_unit_x b3)

/-- Per-axis SAT test on the `y` unit axis: sections are the min/max of the
corner `y` coordinates. -/
theorem satAxisTest_unit_y (inc : Bool)
    (a0 a1 a2 a3 b0 b1 b2 b3 : Vertex3 Real) :
    satAxisTest inc 3 ⟨0, 1, 0⟩ [a0, a1, a2, a3] [b0, b1, b2, b3] =
      ⟨!(if inc then
          decide (max (max (max a0.y a1.y) a2.y) a3.y
              < min (min (min b0.y b1.y) b2.y) b3.y - 1 / 1000000) ||
          decide (max (max (max b0.y b1.y) b2.y) b3.y
              < min (min (min a0.y a1.y) a2.y) a3.y - 1 / 1000000)
        else
          decide (max (max (max a0.y a1.y) a2.y) a3.y
              < min (min (min b0.y b1.y) b2.y) b3.y + 1 / 1000000) ||
          decide (max (max (max b0.y b1.y) b2.y) b3.y
              < min (min (min a0.y a1.y) a2.y) a3.y + 1 / 1000000)),
       false,
       some (min (min (min a0.y a1.y) a2.y) a3.y,
         max (max (max a0.y a1.y) a2.y) a3.y),
       some (min (min (min b0.y b1.y) b2.y) b3.y,
         max (max (max b0.y b1.y) b2.y) b3.y)⟩ :=
  satAxisTest_four inc ⟨0, 1, 0⟩ a0 a1 a2 a3 b0 b1 b2 b3 _ _ _ _ _ _ _ _
    a0.y a1.y a2.y a3.y b0.y b1.y b2.y b3.y
    (footPoint_unit_y a0) (footPoint_unit_y a1) (footPoint_unit_y a2)
    (footPoint_unit_y a3) (footPoint_unit_y b0) (footPoint_unit_y b1)
    (footPoint_unit_y b2) (footPoint_unit_y b3)

theorem bool_dup_all (a b : Bool) : (a && (b && (a && b))) = (a && b) := by
  cases a <;> cases b <;> rfl

/-- Evaluation of `hasBoundingBoxCollision2d` on two axis-aligned boxes
(`uAxis = (1,0)`, nonnegative side lengths): the result is the conjunction
of the two interval overlap tests, with the `1e-6` tolerance on the side
selected by `includeContacting`. -/
theorem collision2d_axisAligned (ax ay bx yb u1 v1 u2 v2 : Real)
    (hu1 : 0 ≤ u1) (hv1 : 0 ≤ v1) (hu2 : 0 ≤ u2) (hv2 : 0 ≤ v2) (inc : Bool) :
    (hasBoundingBoxCollision2d ⟨⟨ax, ay⟩, ⟨1, 0⟩, ⟨u1, v1⟩⟩
        ⟨⟨bx, yb⟩, ⟨1, 0⟩, ⟨u2, v2⟩⟩ inc).result
      = ((!(if inc then
            decide (ax + u1 < bx - 1 / 1000000) ||
            decide (bx + u2 < ax - 1 / 1000000)
          else
            decide (ax + u1 < bx + 1 / 1000000) ||
            decide (bx + u2 < ax + 1 / 1000000))) &&
        (!(if inc then
            decide (ay + v1 < yb - 1 / 1000000) ||
            decide (yb + v2 < ay - 1 / 1000000)
          else
            decide (ay + v1 < yb + 1 / 1000000) ||
            decide (yb + v2 < ay + 1 / 1000000)))) := by
  have hax : ax ≤ ax + u1 := le_add_of_nonneg_right hu1
  have hay : ay ≤ ay + v1 := le_add_of_nonneg_right hv1
  have hbx : bx ≤ bx + u2 := le_add_of_nonneg_right hu2
  have hby : yb ≤ yb + v2 := le_add_of_nonneg_right hv2
  rw [hasBoundingBoxCollision2d, if_neg (by norm_num [VectorUtils.getSize])]
  show (collision2dAxisResults ⟨⟨ax, ay⟩, ⟨1, 0⟩, ⟨u1, v1⟩⟩
      ⟨⟨bx, yb⟩, ⟨1, 0⟩, ⟨u2, v2⟩⟩ inc).all
      (fun r => !r.hasError && r.hasCollision) = _
  simp only [collision2dAxisResults, normalize_unit_x, rotate_unit_x_half_pi,
    List.map_cons, List.map_nil, satAxisTest_unit_x, satAxisTest_unit_y,
    Vertex3.add, Vertex3.multiply, one_mul, zero_mul, add_zero,
    List.all_cons, List.all_nil, Bool.not_false, Bool.true_and, Bool.and_true,
    min_eq_left hax, max_eq_right hax, max_eq_left hax, min_self, max_self,
    min_eq_left hay, max_eq_right hay, max_eq_left hay,
    min_eq_left hbx, max_eq_right hbx, max_eq_left hbx,
    min_eq_left hby, max_eq_right hby, max_eq_left hby]
  exact bool_dup_all _ _

end JakkeGraphics

namespace JakkeGraphics

/-- C6 counterexample: two axis-aligned boxes with a positive gap of `1e-7`
along the shared `x` axis report `result: true` when
`includeContacting = true`, because the contact branch subtracts the `1e-6`
tolerance before comparing — contradicting "result:false for both values of
includeContacting whenever the gap is positive". -/
theorem C6_counterexample_small_gap :
    (0 : Real) < 1 / 10000000 ∧
    (hasBoundingBoxCollision2d ⟨⟨0, 0⟩, ⟨1, 0⟩, ⟨10, 3⟩⟩
        ⟨⟨10 + 1 / 10000000, 0⟩, ⟨1, 0⟩, ⟨10, 3⟩⟩ true).result = true := by
  refine ⟨by norm_num, ?_⟩
  rw [collision2d_axisAligned 0 0 (10 + 1 / 10000000) 0 10 3 10 3
    (by norm_num) (by norm_num) (by norm_num) (by norm_num) true]
  norm_num

/-- C6 (amended): for axis-aligned boxes `A` spanning `[ax, ax+u1]` and `B`
anchored at `ax + u1 + g` on the shared `x` axis: (i) with
`includeContacting = false` any positive gap `g` gives `result: false`;
(ii) with `includeContacting = true` a gap above the `1e-6` tolerance gives
`result: false` (positive gaps at or below `1e-6` report `true` instead, see
the counterexample); (iii) exactly touching boxes (`g = 0`) with overlapping
`y` ranges report `result: true` when `includeContacting = true`; (iv) and
`result: false` when `includeContacting = false`. -/
theorem C6_axis_aligned_gap_and_touch :
    (∀ ax ay yb u1 v1 u2 v2 g : Real, 0 ≤ u1 → 0 ≤ v1 → 0 ≤ u2 → 0 ≤ v2 →
      0 < g →
      (hasBoundingBoxCollision2d ⟨⟨ax, ay⟩, ⟨1, 0⟩, ⟨u1, v1⟩⟩
        ⟨⟨ax + u1 + g, yb⟩, ⟨1, 0⟩, ⟨u2, v2⟩⟩ false).result = false) ∧
    (∀ ax ay yb u1 v1 u2 v2 g : Real, 0 ≤ u1 → 0 ≤ v1 → 0 ≤ u2 → 0 ≤ v2 →
      1 / 1000000 < g →
      (hasBoundingBoxCollision2d ⟨⟨ax, ay⟩, ⟨1, 0⟩, ⟨u1, v1⟩⟩
        ⟨⟨ax + u1 + g, yb⟩, ⟨1, 0⟩, ⟨u2, v2⟩⟩ true).result = false) ∧
    (∀ ax ay yb u1 v1 u2 v2 : Real, 0 ≤ u1 → 0 ≤ v1 → 0 ≤ u2 → 0 ≤ v2 →
      yb ≤ ay + v1 → ay ≤ yb + v2 →
      (hasBoundingBoxCollision2d ⟨⟨ax, ay⟩, ⟨1, 0⟩, ⟨u1, v1⟩⟩
        ⟨⟨ax + u1, yb⟩, ⟨1, 0⟩, ⟨u2, v2⟩⟩ true).result = true) ∧
    (∀ ax ay yb u1 v1 u2 v2 : Real, 0 ≤ u1 → 0 ≤ v1 → 0 ≤ u2 → 0 ≤ v2 →
      (hasBoundingBoxCollision2d ⟨⟨ax, ay⟩, ⟨1, 0⟩, ⟨u1, v1⟩⟩
        ⟨⟨ax + u1, yb⟩, ⟨1, 0⟩, ⟨u2, v2⟩⟩ false).result = false) := by
  refine ⟨?_, ?_, ?_, ?_⟩
  · intro ax ay yb u1 v1 u2 v2 g hu1 hv1 hu2 hv2 hg
    rw [collision2d_axisAligned _ _ _ _ _ _ _ _ hu1 hv1 hu2 hv2 false]
    have h1 : ax + u1 < ax + u1 + g + 1 / 1000000 := by linarith
    simp [h1]
    intro hc1 hc2 hc3
    linarith
  · intro ax ay yb u1 v1 u2 v2 g hu1 hv1 hu2 hv2 hg
    rw [collision2d_axisAligned _ _ _ _ _ _ _ _ hu1 hv1 hu2 hv2 true]
    have h1 : ax + u1 < ax + u1 + g - 1 / 1000000 := by linarith
    simp [h1]
    intro hc1 hc2 hc3
    linarith
  · intro ax ay yb u1 v1 u2 v2 hu1 hv1 hu2 hv2 hy1 hy2
    rw [collision2d_axisAligned _ _ _ _ _ _ _ _ hu1 hv1 hu2 hv2 true]
    have h1 : ¬ (ax + u1 < ax + u1 - 1 / 1000000) := by linarith
    have h2 : ¬ (ax + u1 + u2 < ax - 1 / 1000000) := by linarith
    have h3 : ¬ (ay + v1 < yb - 1 / 1000000) := by linarith
    have h4 : ¬ (yb + v2 < ay - 1 / 1000000) := by linarith
    simp [h1, h2, h3, h4]
    refine ⟨by linarith, by linarith, by linarith⟩
  · intro ax ay yb u1 v1 u2 v2 hu1 hv1 hu2 hv2
    rw [collision2d_axisAligned _ _ _ _ _ _ _ _ hu1 hv1 hu2 hv2 false]
    have h1 : ax + u1 < ax + u1 + 1 / 1000000 := by linarith
    simp [h1]

theorem C6_witness :
    (hasBoundingBoxCollision2d ⟨⟨0, 0⟩, ⟨1, 0⟩, ⟨10, 3⟩⟩
        ⟨⟨0 + 10 + 1, 0⟩, ⟨1, 0⟩, ⟨10, 3⟩⟩ false).result = false ∧
    (hasBoundingBoxCollision2d ⟨⟨0, 0⟩, ⟨1, 0⟩, ⟨10, 3⟩⟩
        ⟨⟨0 + 10 + 1, 0⟩, ⟨1, 0⟩, ⟨10, 3⟩⟩ true).result = false ∧
    (hasBoundingBoxCollision2d ⟨⟨0, 0⟩, ⟨1, 0⟩, ⟨10, 3⟩⟩
        ⟨⟨0 + 10, 0⟩, ⟨1, 0⟩, ⟨10, 3⟩⟩ true).result = true ∧
    (hasBoundingBoxCollision2d ⟨⟨0, 0⟩, ⟨1, 0⟩, ⟨10, 3⟩⟩
        ⟨⟨0 + 10, 0⟩, ⟨1, 0⟩, ⟨10, 3⟩⟩ false).result = false :=
  ⟨C6_axis_aligned_gap_and_touch.1 0 0 0 10 3 10 3 1 (by norm_num)
      (by norm_num) (by norm_num) (by norm_num) (by norm_num),
    C6_axis_aligned_gap_and_touch.2.1 0 0 0 10 3 10 3 1 (by norm_num)
      (by norm_num) (by norm_num) (by norm_num) (by norm_num),
    C6_axis_aligned_gap_and_touch.2.2.1 0 0 0 10 3 10 3 (by norm_num)
      (by norm_num) (by norm_num) (by norm_num) (by norm_num) (by norm_num),
    C6_axis_aligned_gap_and_touch.2.2.2 0 0 0 10 3 10 3 (by norm_num)
      (by norm_num) (by norm_num) (by norm_num)⟩

end JakkeGraphics
